import Mathlib

/-!
Shallow embedding of the Spot-Welder firmware core
(`src/Blackpill_F411_HAL/src/main.c` and
`src/WeldController_STM32/src/main.cpp`), with theorems settling the
frozen claims about the interlock gate, pulse sequencer, parameter
store, pedal debounce and command parsers.

Machine integers are embedded as `Nat`/`Int`.  The firmware computes
elapsed times with `uint32_t` subtraction, embedded here as `sub32`;
narrowing casts `(uint8_t)`/`(uint16_t)` are `toU8`/`toU16`.  Command
lines are `List Char`.  UART output is a list of abstract `Line`
values, one per `uartSend` call; PWM activity is a list of `Pulse`
records, one per `doPulseMsPwm` drive.  Busy-wait delays are exact by
design (the source busy-waits on the millisecond tick), so the clock
advances by exactly the clamped delay amounts.
-/

namespace SpotWeld

/-- `uint32_t` subtraction `a - b` (the firmware's tick arithmetic). -/
def sub32 (a b : Nat) : Nat := (a + 4294967296 - b) % 4294967296

/-- Reinterpret a `uint32_t` value as `int32_t` (the `(int32_t)` casts). -/
def toInt32 (n : Nat) : Int :=
  if n % 4294967296 < 2147483648 then (n % 4294967296 : Int)
  else (n % 4294967296 : Int) - 4294967296

/-- C conversion of an `int` value to `uint8_t`: reduction mod 256. -/
def toU8 (v : Int) : Nat := (v % 256).toNat

/-- C conversion of an `int` value to `uint16_t`: reduction mod 65536. -/
def toU16 (v : Int) : Nat := (v % 65536).toNat

/-- The weld parameter globals shared by both variants
(`weld_mode` … `preheat_gap_ms`). -/
structure Params where
  weld_mode : Nat
  weld_d1_ms : Nat
  weld_gap1_ms : Nat
  weld_d2_ms : Nat
  weld_gap2_ms : Nat
  weld_d3_ms : Nat
  weld_power_pct : Nat
  preheat_enabled : Bool
  preheat_ms : Nat
  preheat_pct : Nat
  preheat_gap_ms : Nat
deriving DecidableEq

/-- The safety/interlock globals (`welding_now`, `last_weld_ms`,
`armed`, `armed_until_ms`, `boot_ms`). -/
structure SafetyState where
  welding_now : Bool
  last_weld_ms : Nat
  armed : Bool
  armed_until_ms : Nat
  boot_ms : Nat
deriving DecidableEq

/-- Pedal debounce globals (`pedal_last_raw`, `pedal_stable`,
`pedal_last_change_ms`).  `true` is the GPIO high level (pedal
released, pull-up); `false` is low (pedal pressed, active low). -/
structure PedalState where
  lastRaw : Bool
  stable : Bool
  lastChange : Nat
deriving DecidableEq

/-- One PWM drive: `doPulseMsPwm` energises the output at `duty` for
`ms` milliseconds. -/
structure Pulse where
  ms : Nat
  duty : Nat
deriving DecidableEq

/-- One UART output line (`uartSend` call), abstracted by content. -/
inductive Line where
  | ackArm (v : Nat)
  | ackPulse (v : Nat)
  | errPulseRange
  | ackSetPulse (mode : Nat)
  | denyBadSetPulse
  | ackPower (v : Nat)
  | errPowerRange
  | ackSetPower (pct : Nat)
  | ackSetPreheat (en : Nat)
  | denyBadSetPreheat
  | ackEnabled
  | ackDisabled
  | statusLine (armed : Nat) (cooldown : Int) (welding : Nat)
      (mode : Nat) (power : Nat) (preheatEn : Nat)
  | errUnknownCmd
  | denyBootInhibit (ms : Nat)
  | denyNotArmed
  | denyAlreadyWelding
  | denyCooldown (ms : Nat)
  | eventArmTimeout
  | eventWeldStart
  | eventWeldDone (totalMs : Nat) (rep : Params)
  | eventWeldDoneUs (totalUs : Nat) (rep : Params)
  | eventPedalPress
deriving DecidableEq

/-- Result of one entry into the firmware (command or fire):
post-state plus the emitted UART lines and PWM pulses. -/
structure FireOut where
  params : Params
  safety : SafetyState
  lines : List Line
  pulses : List Pulse
deriving DecidableEq

/-- Result of one pedal poll. -/
structure PollOut where
  ped : PedalState
  params : Params
  safety : SafetyState
  lines : List Line
  pulses : List Pulse
deriving DecidableEq

/-- Characters of a string literal (C string / Arduino `String`). -/
def strL (s : String) : List Char := s.data

/-- `strncmp(line, pat, strlen pat) == 0` / Arduino `startsWith`. -/
def startsWith : List Char → List Char → Bool
  | [], _ => true
  | _ :: _, [] => false
  | a :: as, b :: bs => a == b && startsWith as bs

/-- Leading-whitespace skip performed by C `atoi`/`atol` and by the
`%d` conversion of `sscanf`. -/
def skipSpaces : List Char → List Char
  | [] => []
  | c :: cs =>
    if c = ' ' ∨ c = '\t' ∨ c = '\n' ∨ c = '\x0b' ∨ c = '\x0c' ∨ c = '\r'
    then skipSpaces cs else c :: cs

/-- Greedy decimal-digit accumulation (the digit loop of `atoi`). -/
def digitsLoop : List Char → Nat → Nat × List Char
  | [], acc => (acc, [])
  | c :: cs, acc =>
    if c.isDigit then digitsLoop cs (acc * 10 + (c.toNat - 48))
    else (acc, c :: cs)

/-- C `atoi` / Arduino `String::toInt` (which calls `atol`): skip
whitespace, optional sign, greedy digits; `0` when no digits. -/
def atoiInt (cs : List Char) : Int :=
  match skipSpaces cs with
  | '-' :: rest => - (Int.ofNat (digitsLoop rest 0).1)
  | '+' :: rest => Int.ofNat (digitsLoop rest 0).1
  | rest => Int.ofNat (digitsLoop rest 0).1

/-- One `%d` conversion of `sscanf`: skip whitespace, optional sign,
then at least one digit, else matching failure. -/
def scanInt (cs : List Char) : Option (Int × List Char) :=
  match skipSpaces cs with
  | '-' :: rest =>
    match rest with
    | c :: _ =>
      if c.isDigit then some (- (Int.ofNat (digitsLoop rest 0).1), (digitsLoop rest 0).2)
      else none
    | [] => none
  | '+' :: rest =>
    match rest with
    | c :: _ =>
      if c.isDigit then some (Int.ofNat (digitsLoop rest 0).1, (digitsLoop rest 0).2)
      else none
    | [] => none
  | rest =>
    match rest with
    | c :: _ =>
      if c.isDigit then some (Int.ofNat (digitsLoop rest 0).1, (digitsLoop rest 0).2)
      else none
    | [] => none

/-- `sscanf` over a format of up to `k` comma-separated `%d`
conversions (the tail of `"SET_PULSE,%d,%d,%d,%d,%d,%d"` and
`"SET_PREHEAT,%d,%d,%d,%d"` after the literal part, which the caller
has already matched via the branch guard).  Returns the conversion
count and the converted values in order; on a conversion or literal
mismatch it stops, exactly as `sscanf` does. -/
def scanIntsSep : List Char → Nat → Nat × List Int
  | _, 0 => (0, [])
  | cs, k + 1 =>
    match scanInt cs with
    | none => (0, [])
    | some (v, rest) =>
      if k = 0 then (1, [v])
      else
        match rest with
        | ',' :: r2 =>
          let r := scanIntsSep r2 k
          (r.1 + 1, v :: r.2)
        | _ => (1, [v])

/-- Arduino `String::indexOf(ch, fromIndex)`: first index `≥ i`
holding `ch`, else `-1`. -/
def indexOfFrom (cs : List Char) (ch : Char) (i : Nat) : Int :=
  match (cs.drop i).findIdx? (fun c => c = ch) with
  | some j => Int.ofNat (i + j)
  | none => -1

/-- Arduino `String::substring(a, b)`: characters `[a, b)`. -/
def substrL (cs : List Char) (a b : Nat) : List Char :=
  (cs.drop a).take (b - a)

/-- Comparison map for the variant-equivalence claim: the spec says
the two variants implement "the identical control contract"; their
`WELD_DONE` events differ only in units (the Blackpill reports
`total_ms`, the WeldController `total_us` = 1000 × the same staged
milliseconds), so this map relates a Blackpill output trace to the
WeldController one. -/
def msLinesToUs (ls : List Line) : List Line :=
  ls.map fun l =>
    match l with
    | Line.eventWeldDone t rep => Line.eventWeldDoneUs (1000 * t) rep
    | x => x

namespace Blackpill

def WELD_COOLDOWN_MS : Nat := 500

def MAX_WELD_MS : Nat := 200

def PEDAL_DEBOUNCE_MS : Nat := 40

def BOOT_INHIBIT_MS : Nat := 5000

def ARM_TIMEOUT_MS : Nat := 0

def PWM_MAX : Nat := 1023

/-- Boot-time values of the weld parameter globals. -/
def initParams : Params :=
  ⟨1, 10, 0, 0, 0, 0, 100, false, 20, 30, 3⟩

/-- Boot-time safety state: this variant boots disarmed. -/
def initSafety (boot : Nat) : SafetyState :=
  ⟨false, 0, false, 0, boot⟩

/-- `clampParams` of `main.c`. -/
def clampParams (p : Params) : Params :=
  let m1 := if p.weld_mode < 1 then 1 else p.weld_mode
  let m2 := if m1 > 3 then 3 else m1
  let d1 := if p.weld_d1_ms > MAX_WELD_MS then MAX_WELD_MS else p.weld_d1_ms
  let d2 := if p.weld_d2_ms > MAX_WELD_MS then MAX_WELD_MS else p.weld_d2_ms
  let d3 := if p.weld_d3_ms > MAX_WELD_MS then MAX_WELD_MS else p.weld_d3_ms
  let pw1 := if p.weld_power_pct < 50 then 50 else p.weld_power_pct
  let pw2 := if pw1 > 100 then 100 else pw1
  let pp := if p.preheat_pct > 100 then 100 else p.preheat_pct
  let pm := if p.preheat_ms > MAX_WELD_MS then MAX_WELD_MS else p.preheat_ms
  { p with weld_mode := m2, weld_d1_ms := d1, weld_d2_ms := d2,
           weld_d3_ms := d3, weld_power_pct := pw2,
           preheat_pct := pp, preheat_ms := pm }

/-- `applyArmTimeout` of `main.c`.  With `ARM_TIMEOUT_MS = 0` it
returns at its first guard. -/
def applyArmTimeout (s : SafetyState) (now : Nat) : SafetyState × List Line :=
  if ARM_TIMEOUT_MS = 0 then (s, [])
  else if s.armed = false then (s, [])
  else if s.armed_until_ms = 0 then (s, [])
  else if 0 ≤ toInt32 (sub32 now s.armed_until_ms) then
    ({ s with armed := false, armed_until_ms := 0 }, [Line.eventArmTimeout])
  else (s, [])

/-- `pctToDuty` of `main.c`. -/
def pctToDuty (pct : Nat) : Nat :=
  if pct ≥ 100 then PWM_MAX else pct * PWM_MAX / 100

/-- `delayMsExact` of `main.c`, as the exact number of milliseconds it
busy-waits (zero is a no-op; longer requests are clamped). -/
def delayMsExact (ms : Nat) : Nat :=
  if ms = 0 then 0
  else if ms > MAX_WELD_MS then MAX_WELD_MS else ms

/-- `doPulseMsPwm` of `main.c`: the PWM pulse driven (empty when
`ms = 0`) and the milliseconds spent. -/
def doPulseMsPwm (ms duty : Nat) : List Pulse × Nat :=
  if ms = 0 then ([], 0)
  else
    let m := if ms > MAX_WELD_MS then MAX_WELD_MS else ms
    ([⟨m, duty⟩], m)

/-- `fireRecipe` of `main.c`: the interlock gate followed by the pulse
sequencer.  `now` is the `HAL_GetTick()` read on entry; the sequencer
delays advance the clock exactly, so the final tick is
`now + 2 + total` (2 ms deadtime plus the staged waits). -/
def fireRecipe (p : Params) (s : SafetyState) (now : Nat) : FireOut :=
  if sub32 now s.boot_ms < BOOT_INHIBIT_MS then
    ⟨p, s, [Line.denyBootInhibit (BOOT_INHIBIT_MS - sub32 now s.boot_ms)], []⟩
  else
    let r1 := applyArmTimeout s now
    let s1 := r1.1
    if s1.armed = false then ⟨p, s1, r1.2 ++ [Line.denyNotArmed], []⟩
    else if s1.welding_now then ⟨p, s1, r1.2 ++ [Line.denyAlreadyWelding], []⟩
    else if sub32 now s1.last_weld_ms < WELD_COOLDOWN_MS then
      ⟨p, s1, r1.2 ++ [Line.denyCooldown (WELD_COOLDOWN_MS - sub32 now s1.last_weld_ms)], []⟩
    else
      let q := clampParams p
      let pre : List Pulse × Nat :=
        if q.preheat_enabled ∧ q.preheat_ms > 0 then
          let pu := doPulseMsPwm q.preheat_ms (pctToDuty q.preheat_pct)
          if q.preheat_gap_ms > 0 then (pu.1, pu.2 + delayMsExact q.preheat_gap_ms)
          else pu
        else ([], 0)
      let mainDuty := pctToDuty q.weld_power_pct
      let st1 : List Pulse × Nat :=
        if q.weld_mode ≥ 1 then doPulseMsPwm q.weld_d1_ms mainDuty else ([], 0)
      let st2 : List Pulse × Nat :=
        if q.weld_mode ≥ 2 then
          let g := if q.weld_gap1_ms ≠ 0 then delayMsExact q.weld_gap1_ms else 0
          let pu := doPulseMsPwm q.weld_d2_ms mainDuty
          (pu.1, g + pu.2)
        else ([], 0)
      let st3 : List Pulse × Nat :=
        if q.weld_mode ≥ 3 then
          let g := if q.weld_gap2_ms ≠ 0 then delayMsExact q.weld_gap2_ms else 0
          let pu := doPulseMsPwm q.weld_d3_ms mainDuty
          (pu.1, g + pu.2)
        else ([], 0)
      let total := pre.2 + st1.2 + st2.2 + st3.2
      ⟨q,
       { s1 with welding_now := false,
                 last_weld_ms := (now + 2 + total) % 4294967296 },
       r1.2 ++ [Line.eventWeldStart, Line.eventWeldDone total q],
       pre.1 ++ st1.1 ++ st2.1 ++ st3.1⟩

/-- The guard chain of `parseCommand`: whether any branch other than
the final `ERR,UNKNOWN_CMD` fallback is taken. -/
def recognized (cs : List Char) : Bool :=
  startsWith (strL (r"ARM,")) cs ||
  startsWith (strL (r"CMD,SET,PULSE,")) cs ||
  startsWith (strL (r"SET_PULSE,")) cs ||
  startsWith (strL (r"CMD,SET,POWER,")) cs ||
  startsWith (strL (r"SET_POWER,")) cs ||
  startsWith (strL (r"SET_PREHEAT,")) cs ||
  cs = strL (r"CMD,FIRE") ||
  cs = strL (r"CMD,ENABLE") ||
  cs = strL (r"CMD,DISABLE") ||
  cs = strL (r"STATUS") ||
  cs = strL (r"CMD,STATUS")

/-- `parseCommand` of `main.c`. -/
def parseCommand (cs : List Char) (p : Params) (s : SafetyState) (now : Nat) : FireOut :=
  if startsWith (strL (r"ARM,")) cs then
    if atoiInt (cs.drop 4) = 1 then
      ⟨p, { s with armed := true,
                   armed_until_ms := if ARM_TIMEOUT_MS = 0 then 0
                                     else (now + ARM_TIMEOUT_MS) % 4294967296 },
       [Line.ackArm 1], []⟩
    else
      ⟨p, { s with armed := false, armed_until_ms := 0 }, [Line.ackArm 0], []⟩
  else if startsWith (strL (r"CMD,SET,PULSE,")) cs then
    let val := atoiInt (cs.drop 14)
    if 0 < val ∧ val ≤ 200 then
      let p1 := { p with weld_d1_ms := toU16 val }
      ⟨p1, s, [Line.ackPulse p1.weld_d1_ms], []⟩
    else ⟨p, s, [Line.errPulseRange], []⟩
  else if startsWith (strL (r"SET_PULSE,")) cs then
    let r := scanIntsSep (cs.drop 10) 6
    if r.1 ≥ 2 then
      let p1 := { p with weld_mode := toU8 (r.2.getD 0 1),
                         weld_d1_ms := toU16 (r.2.getD 1 0),
                         weld_gap1_ms := toU16 (r.2.getD 2 0),
                         weld_d2_ms := toU16 (r.2.getD 3 0),
                         weld_gap2_ms := toU16 (r.2.getD 4 0),
                         weld_d3_ms := toU16 (r.2.getD 5 0) }
      let p2 := clampParams p1
      ⟨p2, s, [Line.ackSetPulse p2.weld_mode], []⟩
    else ⟨p, s, [Line.denyBadSetPulse], []⟩
  else if startsWith (strL (r"CMD,SET,POWER,")) cs then
    let val := atoiInt (cs.drop 14)
    if 50 ≤ val ∧ val ≤ 100 then
      let p1 := { p with weld_power_pct := toU8 val }
      ⟨p1, s, [Line.ackPower p1.weld_power_pct], []⟩
    else ⟨p, s, [Line.errPowerRange], []⟩
  else if startsWith (strL (r"SET_POWER,")) cs then
    let p1 := clampParams { p with weld_power_pct := toU8 (atoiInt (cs.drop 10)) }
    ⟨p1, s, [Line.ackSetPower p1.weld_power_pct], []⟩
  else if startsWith (strL (r"SET_PREHEAT,")) cs then
    let r := scanIntsSep (cs.drop 12) 4
    if r.1 ≥ 3 then
      let p1 := { p with preheat_enabled := r.2.getD 0 0 == 1,
                         preheat_ms := toU16 (r.2.getD 1 0),
                         preheat_pct := toU8 (r.2.getD 2 0),
                         preheat_gap_ms := if r.1 ≥ 4 then toU16 (r.2.getD 3 0)
                                           else p.preheat_gap_ms }
      let p2 := clampParams p1
      ⟨p2, s, [Line.ackSetPreheat (if p2.preheat_enabled then 1 else 0)], []⟩
    else ⟨p, s, [Line.denyBadSetPreheat], []⟩
  else if cs = strL (r"CMD,FIRE") then fireRecipe p s now
  else if cs = strL (r"CMD,ENABLE") then
    ⟨p, { s with armed := true }, [Line.ackEnabled], []⟩
  else if cs = strL (r"CMD,DISABLE") then
    ⟨p, { s with armed := false }, [Line.ackDisabled], []⟩
  else if cs = strL (r"STATUS") ∨ cs = strL (r"CMD,STATUS") then
    let cdRaw := (500 : Int) - toInt32 (sub32 now s.last_weld_ms)
    let cd := if cdRaw < 0 then 0 else cdRaw
    ⟨p, s,
     [Line.statusLine (if s.armed then 1 else 0) cd
        (if s.welding_now then 1 else 0) p.weld_mode p.weld_power_pct
        (if p.preheat_enabled then 1 else 0)], []⟩
  else ⟨p, s, [Line.errUnknownCmd], []⟩

/-- `pollPedal` of `main.c`: one debounce sample at level `raw`
(`true` = GPIO_PIN_SET = released) and tick `now`. -/
def pollPedal (ped : PedalState) (raw : Bool) (now : Nat)
    (p : Params) (s : SafetyState) : PollOut :=
  let ped1 := if raw ≠ ped.lastRaw then
                ⟨raw, ped.stable, now⟩
              else ped
  if sub32 now ped1.lastChange ≥ PEDAL_DEBOUNCE_MS then
    if raw ≠ ped1.stable then
      let prev := ped1.stable
      let ped2 := { ped1 with stable := raw }
      if prev = true ∧ raw = false then
        let o := fireRecipe p s now
        ⟨ped2, o.params, o.safety, Line.eventPedalPress :: o.lines, o.pulses⟩
      else ⟨ped2, p, s, [], []⟩
    else ⟨ped1, p, s, [], []⟩
  else ⟨ped1, p, s, [], []⟩

/-- Iterated pedal polling over a list of `(tick, raw level)` samples,
concatenating all emitted lines and pulses. -/
def runPedal : List (Nat × Bool) → PedalState → Params → SafetyState → PollOut
  | [], ped, p, s => ⟨ped, p, s, [], []⟩
  | (t, rw) :: rest, ped, p, s =>
    let o := pollPedal ped rw t p s
    let R := runPedal rest o.ped o.params o.safety
    ⟨R.ped, R.params, R.safety, o.lines ++ R.lines, o.pulses ++ R.pulses⟩

end Blackpill

namespace WeldCtl

def WELD_COOLDOWN_MS : Nat := 500

def MAX_WELD_MS : Nat := 200

def PEDAL_DEBOUNCE_MS : Nat := 40

def BOOT_INHIBIT_MS : Nat := 5000

def ARM_TIMEOUT_MS : Nat := 0

def PWM_MAX : Nat := 1023

/-- Boot-time values of the weld parameter globals. -/
def initParams : Params :=
  ⟨1, 10, 0, 0, 0, 0, 100, false, 20, 30, 3⟩

/-- Boot-time safety state: this variant boots ARMED. -/
def initSafety (boot : Nat) : SafetyState :=
  ⟨false, 0, true, 0, boot⟩

/-- `clampParams` of `main.cpp`. -/
def clampParams (p : Params) : Params :=
  let m1 := if p.weld_mode < 1 then 1 else p.weld_mode
  let m2 := if m1 > 3 then 3 else m1
  let d1 := if p.weld_d1_ms > MAX_WELD_MS then MAX_WELD_MS else p.weld_d1_ms
  let d2 := if p.weld_d2_ms > MAX_WELD_MS then MAX_WELD_MS else p.weld_d2_ms
  let d3 := if p.weld_d3_ms > MAX_WELD_MS then MAX_WELD_MS else p.weld_d3_ms
  let pw1 := if p.weld_power_pct < 50 then 50 else p.weld_power_pct
  let pw2 := if pw1 > 100 then 100 else pw1
  let pp := if p.preheat_pct > 100 then 100 else p.preheat_pct
  let pm := if p.preheat_ms > MAX_WELD_MS then MAX_WELD_MS else p.preheat_ms
  { p with weld_mode := m2, weld_d1_ms := d1, weld_d2_ms := d2,
           weld_d3_ms := d3, weld_power_pct := pw2,
           preheat_pct := pp, preheat_ms := pm }

/-- `applyArmTimeout` of `main.cpp` (no-op: `ARM_TIMEOUT_MS = 0`). -/
def applyArmTimeout (s : SafetyState) (now : Nat) : SafetyState × List Line :=
  if ARM_TIMEOUT_MS = 0 then (s, [])
  else if s.armed = false then (s, [])
  else if s.armed_until_ms = 0 then (s, [])
  else if 0 ≤ toInt32 (sub32 now s.armed_until_ms) then
    ({ s with armed := false, armed_until_ms := 0 }, [Line.eventArmTimeout])
  else (s, [])

/-- `pctToDuty` of `main.cpp`. -/
def pctToDuty (pct : Nat) : Nat :=
  if pct ≥ 100 then PWM_MAX else pct * PWM_MAX / 100

/-- `delayMsExact` of `main.cpp` (`delayMicroseconds(ms * 1000)`),
in milliseconds. -/
def delayMsExact (ms : Nat) : Nat :=
  if ms = 0 then 0
  else if ms > MAX_WELD_MS then MAX_WELD_MS else ms

/-- `doPulseMsPwm` of `main.cpp`. -/
def doPulseMsPwm (ms duty : Nat) : List Pulse × Nat :=
  if ms = 0 then ([], 0)
  else
    let m := if ms > MAX_WELD_MS then MAX_WELD_MS else ms
    ([⟨m, duty⟩], m)

/-- `fireRecipe` of `main.cpp`.  Identical gate and sequencer to the
Blackpill variant; the completion event reports microseconds
(`micros()` bracketing, exact 1000 µs per staged millisecond). -/
def fireRecipe (p : Params) (s : SafetyState) (now : Nat) : FireOut :=
  if sub32 now s.boot_ms < BOOT_INHIBIT_MS then
    ⟨p, s, [Line.denyBootInhibit (BOOT_INHIBIT_MS - sub32 now s.boot_ms)], []⟩
  else
    let r1 := applyArmTimeout s now
    let s1 := r1.1
    if s1.armed = false then ⟨p, s1, r1.2 ++ [Line.denyNotArmed], []⟩
    else if s1.welding_now then ⟨p, s1, r1.2 ++ [Line.denyAlreadyWelding], []⟩
    else if sub32 now s1.last_weld_ms < WELD_COOLDOWN_MS then
      ⟨p, s1, r1.2 ++ [Line.denyCooldown (WELD_COOLDOWN_MS - sub32 now s1.last_weld_ms)], []⟩
    else
      let q := clampParams p
      let pre : List Pulse × Nat :=
        if q.preheat_enabled ∧ q.preheat_ms > 0 then
          let pu := doPulseMsPwm q.preheat_ms (pctToDuty q.preheat_pct)
          if q.preheat_gap_ms > 0 then (pu.1, pu.2 + delayMsExact q.preheat_gap_ms)
          else pu
        else ([], 0)
      let mainDuty := pctToDuty q.weld_power_pct
      let st1 : List Pulse × Nat :=
        if q.weld_mode ≥ 1 then doPulseMsPwm q.weld_d1_ms mainDuty else ([], 0)
      let st2 : List Pulse × Nat :=
        if q.weld_mode ≥ 2 then
          let g := if q.weld_gap1_ms ≠ 0 then delayMsExact q.weld_gap1_ms else 0
          let pu := doPulseMsPwm q.weld_d2_ms mainDuty
          (pu.1, g + pu.2)
        else ([], 0)
      let st3 : List Pulse × Nat :=
        if q.weld_mode ≥ 3 then
          let g := if q.weld_gap2_ms ≠ 0 then delayMsExact q.weld_gap2_ms else 0
          let pu := doPulseMsPwm q.weld_d3_ms mainDuty
          (pu.1, g + pu.2)
        else ([], 0)
      let total := pre.2 + st1.2 + st2.2 + st3.2
      ⟨q,
       { s1 with welding_now := false,
                 last_weld_ms := (now + 2 + total) % 4294967296 },
       r1.2 ++ [Line.eventWeldStart, Line.eventWeldDoneUs (1000 * total) q],
       pre.1 ++ st1.1 ++ st2.1 ++ st3.1⟩

/-- The guard chain of `handleCmd`: the recognized command set of
this variant (all other lines fall off the end with no response). -/
def recognized (cs : List Char) : Bool :=
  startsWith (strL (r"ARM,")) cs ||
  startsWith (strL (r"SET_PULSE,")) cs ||
  startsWith (strL (r"SET_POWER,")) cs ||
  startsWith (strL (r"SET_PREHEAT,")) cs ||
  cs = strL (r"STATUS")

/-- `handleCmd` of `main.cpp`. -/
def handleCmd (cs : List Char) (p : Params) (s : SafetyState) (now : Nat) : FireOut :=
  if startsWith (strL (r"ARM,")) cs then
    if atoiInt (cs.drop 4) = 1 then
      ⟨p, { s with armed := true,
                   armed_until_ms := if ARM_TIMEOUT_MS = 0 then 0
                                     else (now + ARM_TIMEOUT_MS) % 4294967296 },
       [Line.ackArm 1], []⟩
    else
      ⟨p, { s with armed := false, armed_until_ms := 0 }, [Line.ackArm 0], []⟩
  else if startsWith (strL (r"SET_PULSE,")) cs then
    let r := scanIntsSep (cs.drop 10) 6
    if r.1 < 2 then ⟨p, s, [Line.denyBadSetPulse], []⟩
    else
      let p1 := { p with weld_mode := toU8 (r.2.getD 0 1),
                         weld_d1_ms := toU16 (r.2.getD 1 0),
                         weld_gap1_ms := toU16 (r.2.getD 2 0),
                         weld_d2_ms := toU16 (r.2.getD 3 0),
                         weld_gap2_ms := toU16 (r.2.getD 4 0),
                         weld_d3_ms := toU16 (r.2.getD 5 0) }
      let p2 := clampParams p1
      ⟨p2, s, [Line.ackSetPulse p2.weld_mode], []⟩
  else if startsWith (strL (r"SET_POWER,")) cs then
    let p1 := clampParams { p with weld_power_pct := toU8 (atoiInt (cs.drop 10)) }
    ⟨p1, s, [Line.ackSetPower p1.weld_power_pct], []⟩
  else if startsWith (strL (r"SET_PREHEAT,")) cs then
    let c1 := indexOfFrom cs ',' 12
    let c2 := indexOfFrom cs ',' (c1 + 1).toNat
    let c3 := indexOfFrom cs ',' (c2 + 1).toNat
    if c1 < 0 ∨ c2 < 0 ∨ c3 < 0 then ⟨p, s, [Line.denyBadSetPreheat], []⟩
    else
      let p1 := { p with
        preheat_enabled := atoiInt (substrL cs 12 c1.toNat) == 1,
        preheat_ms := toU16 (atoiInt (substrL cs (c1.toNat + 1) c2.toNat)),
        preheat_pct := toU8 (atoiInt (substrL cs (c2.toNat + 1) c3.toNat)),
        preheat_gap_ms := toU16 (atoiInt (cs.drop (c3.toNat + 1))) }
      let p2 := clampParams p1
      ⟨p2, s, [Line.ackSetPreheat (if p2.preheat_enabled then 1 else 0)], []⟩
  else if cs = strL (r"STATUS") then
    let cdRaw := (500 : Int) - toInt32 (sub32 now s.last_weld_ms)
    let cd := if cdRaw < 0 then 0 else cdRaw
    ⟨p, s,
     [Line.statusLine (if s.armed then 1 else 0) cd
        (if s.welding_now then 1 else 0) p.weld_mode p.weld_power_pct
        (if p.preheat_enabled then 1 else 0)], []⟩
  else ⟨p, s, [], []⟩

/-- `pollPedal` of `main.cpp`: like Blackpill's but the press edge
invokes `fireRecipe` without emitting `EVENT,PEDAL_PRESS`. -/
def pollPedal (ped : PedalState) (raw : Bool) (now : Nat)
    (p : Params) (s : SafetyState) : PollOut :=
  let ped1 := if raw ≠ ped.lastRaw then
                ⟨raw, ped.stable, now⟩
              else ped
  if sub32 now ped1.lastChange ≥ PEDAL_DEBOUNCE_MS then
    if raw ≠ ped1.stable then
      let prev := ped1.stable
      let ped2 := { ped1 with stable := raw }
      if prev = true ∧ raw = false then
        let o := fireRecipe p s now
        ⟨ped2, o.params, o.safety, o.lines, o.pulses⟩
      else ⟨ped2, p, s, [], []⟩
    else ⟨ped1, p, s, [], []⟩
  else ⟨ped1, p, s, [], []⟩

/-- Iterated pedal polling, as for the Blackpill variant. -/
def runPedal : List (Nat × Bool) → PedalState → Params → SafetyState → PollOut
  | [], ped, p, s => ⟨ped, p, s, [], []⟩
  | (t, rw) :: rest, ped, p, s =>
    let o := pollPedal ped rw t p s
    let R := runPedal rest o.ped o.params o.safety
    ⟨R.ped, R.params, R.safety, o.lines ++ R.lines, o.pulses ++ R.pulses⟩

end WeldCtl

/-! ## Helper lemmas -/

/-- `uint32_t` subtraction agrees with `Nat` subtraction on a
monotone clock whose elapsed interval fits in 32 bits. -/
theorem sub32_eq_sub (a b : Nat) (h1 : b ≤ a) (h2 : a - b < 4294967296) :
    sub32 a b = a - b := by
  unfold sub32
  have h3 : a + 4294967296 - b = (a - b) + 4294967296 := by omega
  rw [h3, Nat.add_mod_right]
  exact Nat.mod_eq_of_lt h2

theorem bp_applyArmTimeout_id (s : SafetyState) (now : Nat) :
    Blackpill.applyArmTimeout s now = (s, []) := rfl

theorem wc_applyArmTimeout_id (s : SafetyState) (now : Nat) :
    WeldCtl.applyArmTimeout s now = (s, []) := rfl

/-! ## C1: interlock evaluation order -/

/-- C1: `fireRecipe` (both variants) evaluates its checks in strict
order and reports the first applicable denial: boot inhibition (with
the exact remaining window) dominates everything; then the arm-timeout
expiry check (a no-op here since `ARM_TIMEOUT_MS = 0` disables it);
then `NOT_ARMED`; then `ALREADY_WELDING`; then `COOLDOWN` with the
remaining milliseconds; if none apply, the weld cycle runs. -/
theorem C1_interlock_order (p : Params) (s : SafetyState) (now : Nat)
    (hb : s.boot_ms ≤ now) (hb32 : now - s.boot_ms < 4294967296)
    (hl : s.last_weld_ms ≤ now) (hl32 : now - s.last_weld_ms < 4294967296) :
    (now - s.boot_ms < 5000 →
      Blackpill.fireRecipe p s now =
        ⟨p, s, [Line.denyBootInhibit (5000 - (now - s.boot_ms))], []⟩ ∧
      WeldCtl.fireRecipe p s now =
        ⟨p, s, [Line.denyBootInhibit (5000 - (now - s.boot_ms))], []⟩) ∧
    (5000 ≤ now - s.boot_ms → s.armed = false →
      Blackpill.fireRecipe p s now = ⟨p, s, [Line.denyNotArmed], []⟩ ∧
      WeldCtl.fireRecipe p s now = ⟨p, s, [Line.denyNotArmed], []⟩) ∧
    (5000 ≤ now - s.boot_ms → s.armed = true → s.welding_now = true →
      Blackpill.fireRecipe p s now = ⟨p, s, [Line.denyAlreadyWelding], []⟩ ∧
      WeldCtl.fireRecipe p s now = ⟨p, s, [Line.denyAlreadyWelding], []⟩) ∧
    (5000 ≤ now - s.boot_ms → s.armed = true → s.welding_now = false →
      now - s.last_weld_ms < 500 →
      Blackpill.fireRecipe p s now =
        ⟨p, s, [Line.denyCooldown (500 - (now - s.last_weld_ms))], []⟩ ∧
      WeldCtl.fireRecipe p s now =
        ⟨p, s, [Line.denyCooldown (500 - (now - s.last_weld_ms))], []⟩) ∧
    (5000 ≤ now - s.boot_ms → s.armed = true → s.welding_now = false →
      500 ≤ now - s.last_weld_ms →
      (∃ T, (Blackpill.fireRecipe p s now).lines =
        [Line.eventWeldStart, Line.eventWeldDone T (Blackpill.clampParams p)]) ∧
      (∃ T, (WeldCtl.fireRecipe p s now).lines =
        [Line.eventWeldStart, Line.eventWeldDoneUs T (WeldCtl.clampParams p)])) := by
  have e1 : sub32 now s.boot_ms = now - s.boot_ms := sub32_eq_sub _ _ hb hb32
  have e2 : sub32 now s.last_weld_ms = now - s.last_weld_ms := sub32_eq_sub _ _ hl hl32
  refine ⟨?_, ?_, ?_, ?_, ?_⟩
  · intro h
    constructor <;>
      simp [Blackpill.fireRecipe, WeldCtl.fireRecipe,
        Blackpill.BOOT_INHIBIT_MS, WeldCtl.BOOT_INHIBIT_MS, e1, h]
  · intro h ha
    constructor <;>
      simp [Blackpill.fireRecipe, WeldCtl.fireRecipe,
        Blackpill.BOOT_INHIBIT_MS, WeldCtl.BOOT_INHIBIT_MS,
        bp_applyArmTimeout_id, wc_applyArmTimeout_id, e1, Nat.not_lt.mpr h, ha]
  · intro h ha hw
    constructor <;>
      simp [Blackpill.fireRecipe, WeldCtl.fireRecipe,
        Blackpill.BOOT_INHIBIT_MS, WeldCtl.BOOT_INHIBIT_MS,
        bp_applyArmTimeout_id, wc_applyArmTimeout_id, e1, Nat.not_lt.mpr h, ha, hw]
  · intro h ha hw hc
    constructor <;>
      simp [Blackpill.fireRecipe, WeldCtl.fireRecipe,
        Blackpill.BOOT_INHIBIT_MS, WeldCtl.BOOT_INHIBIT_MS,
        Blackpill.WELD_COOLDOWN_MS, WeldCtl.WELD_COOLDOWN_MS,
        bp_applyArmTimeout_id, wc_applyArmTimeout_id, e1, e2,
        Nat.not_lt.mpr h, ha, hw, hc]
  · intro h ha hw hc
    constructor <;>
    · simp [Blackpill.fireRecipe, WeldCtl.fireRecipe,
        Blackpill.BOOT_INHIBIT_MS, WeldCtl.BOOT_INHIBIT_MS,
        Blackpill.WELD_COOLDOWN_MS, WeldCtl.WELD_COOLDOWN_MS,
        bp_applyArmTimeout_id, wc_applyArmTimeout_id, e1, e2,
        Nat.not_lt.mpr h, Nat.not_lt.mpr hc, ha, hw]
      try exact ⟨_, rfl⟩

/-- C1 witness: at boot time +2000 ms the gate denies `BOOT_INHIBIT`
with exactly 3000 ms remaining, in both variants. -/
theorem C1_interlock_order_witness :
    Blackpill.fireRecipe Blackpill.initParams ⟨false, 0, true, 0, 1000⟩ 3000 =
      ⟨Blackpill.initParams, ⟨false, 0, true, 0, 1000⟩,
        [Line.denyBootInhibit 3000], []⟩ ∧
    WeldCtl.fireRecipe Blackpill.initParams ⟨false, 0, true, 0, 1000⟩ 3000 =
      ⟨Blackpill.initParams, ⟨false, 0, true, 0, 1000⟩,
        [Line.denyBootInhibit 3000], []⟩ :=
  (C1_interlock_order Blackpill.initParams ⟨false, 0, true, 0, 1000⟩ 3000
    (by decide) (by decide) (by decide) (by decide)).1 (by decide)

/-! ## Grant-path helpers -/

/-- When every interlock check passes, the Blackpill `fireRecipe`
clamps the recipe, runs the cycle and completes: parameters become the
clamped recipe, `welding_now` ends false, `last_weld_ms` becomes the
completion tick, and the output is `WELD_START` then `WELD_DONE`
reporting the clamped recipe. -/
theorem bp_fire_grant (p : Params) (s : SafetyState) (now : Nat)
    (hb : s.boot_ms ≤ now) (h5 : 5000 ≤ now - s.boot_ms)
    (hb32 : now - s.boot_ms < 4294967296)
    (hl : s.last_weld_ms ≤ now) (hc : 500 ≤ now - s.last_weld_ms)
    (hl32 : now - s.last_weld_ms < 4294967296)
    (ha : s.armed = true) (hw : s.welding_now = false) :
    ∃ T pl, Blackpill.fireRecipe p s now =
      ⟨Blackpill.clampParams p,
       { s with welding_now := false,
                last_weld_ms := (now + 2 + T) % 4294967296 },
       [Line.eventWeldStart, Line.eventWeldDone T (Blackpill.clampParams p)],
       pl⟩ := by
  have e1 : sub32 now s.boot_ms = now - s.boot_ms := sub32_eq_sub _ _ hb hb32
  have e2 : sub32 now s.last_weld_ms = now - s.last_weld_ms := sub32_eq_sub _ _ hl hl32
  simp [Blackpill.fireRecipe, Blackpill.BOOT_INHIBIT_MS,
    Blackpill.WELD_COOLDOWN_MS, bp_applyArmTimeout_id, e1, e2,
    Nat.not_lt.mpr h5, Nat.not_lt.mpr hc, ha, hw]
  try exact ⟨_, _, rfl⟩

/-- Grant-path characterization for the WeldController variant. -/
theorem wc_fire_grant (p : Params) (s : SafetyState) (now : Nat)
    (hb : s.boot_ms ≤ now) (h5 : 5000 ≤ now - s.boot_ms)
    (hb32 : now - s.boot_ms < 4294967296)
    (hl : s.last_weld_ms ≤ now) (hc : 500 ≤ now - s.last_weld_ms)
    (hl32 : now - s.last_weld_ms < 4294967296)
    (ha : s.armed = true) (hw : s.welding_now = false) :
    ∃ T pl, WeldCtl.fireRecipe p s now =
      ⟨WeldCtl.clampParams p,
       { s with welding_now := false,
                last_weld_ms := (now + 2 + T) % 4294967296 },
       [Line.eventWeldStart, Line.eventWeldDoneUs (1000 * T) (WeldCtl.clampParams p)],
       pl⟩ := by
  have e1 : sub32 now s.boot_ms = now - s.boot_ms := sub32_eq_sub _ _ hb hb32
  have e2 : sub32 now s.last_weld_ms = now - s.last_weld_ms := sub32_eq_sub _ _ hl hl32
  simp [WeldCtl.fireRecipe, WeldCtl.BOOT_INHIBIT_MS,
    WeldCtl.WELD_COOLDOWN_MS, wc_applyArmTimeout_id, e1, e2,
    Nat.not_lt.mpr h5, Nat.not_lt.mpr hc, ha, hw]
  try exact ⟨_, _, rfl⟩

/-! ## C2: at most one fire in progress -/

set_option maxHeartbeats 1600000 in
/-- C2: while `welding_now` is true a fire request mutates nothing,
drives no pulse and emits no second `WELD_START`; past the boot and
arm checks it is denied exactly `ALREADY_WELDING`.  Moreover (both
variants, any entry state) the post-call `welding_now` equals the
entry value: the flag is true only inside an executing fire. -/
theorem C2_single_fire (p : Params) (s : SafetyState) (now : Nat) :
    ((Blackpill.fireRecipe p s now).safety.welding_now = s.welding_now ∧
     (WeldCtl.fireRecipe p s now).safety.welding_now = s.welding_now) ∧
    (s.welding_now = true →
      (Blackpill.fireRecipe p s now).params = p ∧
      (Blackpill.fireRecipe p s now).safety = s ∧
      (Blackpill.fireRecipe p s now).pulses = [] ∧
      Line.eventWeldStart ∉ (Blackpill.fireRecipe p s now).lines ∧
      (WeldCtl.fireRecipe p s now).params = p ∧
      (WeldCtl.fireRecipe p s now).safety = s ∧
      (WeldCtl.fireRecipe p s now).pulses = [] ∧
      Line.eventWeldStart ∉ (WeldCtl.fireRecipe p s now).lines ∧
      (5000 ≤ sub32 now s.boot_ms → s.armed = true →
        (Blackpill.fireRecipe p s now).lines = [Line.denyAlreadyWelding] ∧
        (WeldCtl.fireRecipe p s now).lines = [Line.denyAlreadyWelding])) := by
  constructor
  · constructor <;>
    · simp only [Blackpill.fireRecipe, WeldCtl.fireRecipe,
        bp_applyArmTimeout_id, wc_applyArmTimeout_id]
      split_ifs <;> simp_all
  · intro hw
    have hbp : ∀ P : FireOut → Prop,
        P ⟨p, s, [Line.denyBootInhibit (5000 - sub32 now s.boot_ms)], []⟩ →
        P ⟨p, s, [Line.denyNotArmed], []⟩ →
        P ⟨p, s, [Line.denyAlreadyWelding], []⟩ →
        P (Blackpill.fireRecipe p s now) := by
      intro P h1 h2 h3
      simp only [Blackpill.fireRecipe, Blackpill.BOOT_INHIBIT_MS,
        bp_applyArmTimeout_id]
      split_ifs with g1 g2
      · exact h1
      · exact h2
      · exact h3
    have hwc : ∀ P : FireOut → Prop,
        P ⟨p, s, [Line.denyBootInhibit (5000 - sub32 now s.boot_ms)], []⟩ →
        P ⟨p, s, [Line.denyNotArmed], []⟩ →
        P ⟨p, s, [Line.denyAlreadyWelding], []⟩ →
        P (WeldCtl.fireRecipe p s now) := by
      intro P h1 h2 h3
      simp only [WeldCtl.fireRecipe, WeldCtl.BOOT_INHIBIT_MS,
        wc_applyArmTimeout_id]
      split_ifs with g1 g2
      · exact h1
      · exact h2
      · exact h3
    refine ⟨?_, ?_, ?_, ?_, ?_, ?_, ?_, ?_, ?_⟩
    · exact hbp (fun o => o.params = p) rfl rfl rfl
    · exact hbp (fun o => o.safety = s) rfl rfl rfl
    · exact hbp (fun o => o.pulses = []) rfl rfl rfl
    · exact hbp (fun o => Line.eventWeldStart ∉ o.lines)
        (by simp) (by simp) (by simp)
    · exact hwc (fun o => o.params = p) rfl rfl rfl
    · exact hwc (fun o => o.safety = s) rfl rfl rfl
    · exact hwc (fun o => o.pulses = []) rfl rfl rfl
    · exact hwc (fun o => Line.eventWeldStart ∉ o.lines)
        (by simp) (by simp) (by simp)
    · intro h5 ha
      constructor <;>
      · simp [Blackpill.fireRecipe, WeldCtl.fireRecipe,
          Blackpill.BOOT_INHIBIT_MS, WeldCtl.BOOT_INHIBIT_MS,
          bp_applyArmTimeout_id, wc_applyArmTimeout_id,
          Nat.not_lt.mpr h5, ha, hw]

/-- Cooldown-denial characterization for the Blackpill gate. -/
theorem bp_fire_cool (p : Params) (s : SafetyState) (now : Nat)
    (hb : s.boot_ms ≤ now) (h5 : 5000 ≤ now - s.boot_ms)
    (hb32 : now - s.boot_ms < 4294967296)
    (hl : s.last_weld_ms ≤ now) (hc : now - s.last_weld_ms < 500)
    (ha : s.armed = true) (hw : s.welding_now = false) :
    Blackpill.fireRecipe p s now =
      ⟨p, s, [Line.denyCooldown (500 - (now - s.last_weld_ms))], []⟩ := by
  have e1 : sub32 now s.boot_ms = now - s.boot_ms := sub32_eq_sub _ _ hb hb32
  have e2 : sub32 now s.last_weld_ms = now - s.last_weld_ms :=
    sub32_eq_sub _ _ hl (by omega)
  simp [Blackpill.fireRecipe, Blackpill.BOOT_INHIBIT_MS,
    Blackpill.WELD_COOLDOWN_MS, bp_applyArmTimeout_id, e1, e2,
    Nat.not_lt.mpr h5, ha, hw, hc]

/-- Cooldown-denial characterization for the WeldController gate. -/
theorem wc_fire_cool (p : Params) (s : SafetyState) (now : Nat)
    (hb : s.boot_ms ≤ now) (h5 : 5000 ≤ now - s.boot_ms)
    (hb32 : now - s.boot_ms < 4294967296)
    (hl : s.last_weld_ms ≤ now) (hc : now - s.last_weld_ms < 500)
    (ha : s.armed = true) (hw : s.welding_now = false) :
    WeldCtl.fireRecipe p s now =
      ⟨p, s, [Line.denyCooldown (500 - (now - s.last_weld_ms))], []⟩ := by
  have e1 : sub32 now s.boot_ms = now - s.boot_ms := sub32_eq_sub _ _ hb hb32
  have e2 : sub32 now s.last_weld_ms = now - s.last_weld_ms :=
    sub32_eq_sub _ _ hl (by omega)
  simp [WeldCtl.fireRecipe, WeldCtl.BOOT_INHIBIT_MS,
    WeldCtl.WELD_COOLDOWN_MS, wc_applyArmTimeout_id, e1, e2,
    Nat.not_lt.mpr h5, ha, hw, hc]

/-- Every pulse `doPulseMsPwm` drives lasts at most `MAX_WELD_MS`. -/
theorem mem_doPulse_bp (ms duty : Nat) (pu : Pulse)
    (h : pu ∈ (Blackpill.doPulseMsPwm ms duty).1) : pu.ms ≤ 200 := by
  simp only [Blackpill.doPulseMsPwm, Blackpill.MAX_WELD_MS] at h
  split_ifs at h with h1 h2
  · simp at h
  · simp at h
    simp [h]
  · simp at h
    simp [h]
    omega

/-- Every pulse `doPulseMsPwm` drives lasts at most `MAX_WELD_MS`
(WeldController variant). -/
theorem mem_doPulse_wc (ms duty : Nat) (pu : Pulse)
    (h : pu ∈ (WeldCtl.doPulseMsPwm ms duty).1) : pu.ms ≤ 200 := by
  simp only [WeldCtl.doPulseMsPwm, WeldCtl.MAX_WELD_MS] at h
  split_ifs at h with h1 h2
  · simp at h
  · simp at h
    simp [h]
  · simp at h
    simp [h]
    omega

/-- No pulse of a Blackpill fire exceeds 200 ms. -/
theorem bp_pulses_le (p : Params) (s : SafetyState) (now : Nat) :
    ∀ pu ∈ (Blackpill.fireRecipe p s now).pulses, pu.ms ≤ 200 := by
  intro pu hpu
  simp only [Blackpill.fireRecipe, Blackpill.BOOT_INHIBIT_MS,
    Blackpill.WELD_COOLDOWN_MS, bp_applyArmTimeout_id] at hpu
  by_cases g1 : sub32 now s.boot_ms < 5000
  · rw [if_pos g1] at hpu
    simp at hpu
  rw [if_neg g1] at hpu
  by_cases g2 : s.armed = false
  · rw [if_pos g2] at hpu
    simp at hpu
  rw [if_neg g2] at hpu
  by_cases g3 : s.welding_now = true
  · rw [if_pos g3] at hpu
    simp at hpu
  rw [if_neg g3] at hpu
  by_cases g4 : sub32 now s.last_weld_ms < 500
  · rw [if_pos g4] at hpu
    simp at hpu
  rw [if_neg g4] at hpu
  simp only [List.mem_append] at hpu
  rcases hpu with ((hA | hB) | hC) | hD
  · split_ifs at hA
    · exact mem_doPulse_bp _ _ _ hA
    · exact mem_doPulse_bp _ _ _ hA
    · simp at hA
  · split_ifs at hB
    · exact mem_doPulse_bp _ _ _ hB
    · simp at hB
  · split_ifs at hC
    · exact mem_doPulse_bp _ _ _ hC
    · exact mem_doPulse_bp _ _ _ hC
    · simp at hC
  · split_ifs at hD
    · exact mem_doPulse_bp _ _ _ hD
    · exact mem_doPulse_bp _ _ _ hD
    · simp at hD

/-- No pulse of a WeldController fire exceeds 200 ms. -/
theorem wc_pulses_le (p : Params) (s : SafetyState) (now : Nat) :
    ∀ pu ∈ (WeldCtl.fireRecipe p s now).pulses, pu.ms ≤ 200 := by
  intro pu hpu
  simp only [WeldCtl.fireRecipe, WeldCtl.BOOT_INHIBIT_MS,
    WeldCtl.WELD_COOLDOWN_MS, wc_applyArmTimeout_id] at hpu
  by_cases g1 : sub32 now s.boot_ms < 5000
  · rw [if_pos g1] at hpu
    simp at hpu
  rw [if_neg g1] at hpu
  by_cases g2 : s.armed = false
  · rw [if_pos g2] at hpu
    simp at hpu
  rw [if_neg g2] at hpu
  by_cases g3 : s.welding_now = true
  · rw [if_pos g3] at hpu
    simp at hpu
  rw [if_neg g3] at hpu
  by_cases g4 : sub32 now s.last_weld_ms < 500
  · rw [if_pos g4] at hpu
    simp at hpu
  rw [if_neg g4] at hpu
  simp only [List.mem_append] at hpu
  rcases hpu with ((hA | hB) | hC) | hD
  · split_ifs at hA
    · exact mem_doPulse_wc _ _ _ hA
    · exact mem_doPulse_wc _ _ _ hA
    · simp at hA
  · split_ifs at hB
    · exact mem_doPulse_wc _ _ _ hB
    · simp at hB
  · split_ifs at hC
    · exact mem_doPulse_wc _ _ _ hC
    · exact mem_doPulse_wc _ _ _ hC
    · simp at hC
  · split_ifs at hD
    · exact mem_doPulse_wc _ _ _ hD
    · exact mem_doPulse_wc _ _ _ hD
    · simp at hD

/-- `clampParams` clamps the stage and preheat durations to 200 ms
(Blackpill). -/
theorem bp_clamp_min (p : Params) :
    (Blackpill.clampParams p).weld_d1_ms = min p.weld_d1_ms 200 ∧
    (Blackpill.clampParams p).weld_d2_ms = min p.weld_d2_ms 200 ∧
    (Blackpill.clampParams p).weld_d3_ms = min p.weld_d3_ms 200 ∧
    (Blackpill.clampParams p).preheat_ms = min p.preheat_ms 200 := by
  refine ⟨?_, ?_, ?_, ?_⟩ <;>
  · simp only [Blackpill.clampParams, Blackpill.MAX_WELD_MS]
    split_ifs <;> omega

/-- `clampParams` clamps the stage and preheat durations to 200 ms
(WeldController). -/
theorem wc_clamp_min (p : Params) :
    (WeldCtl.clampParams p).weld_d1_ms = min p.weld_d1_ms 200 ∧
    (WeldCtl.clampParams p).weld_d2_ms = min p.weld_d2_ms 200 ∧
    (WeldCtl.clampParams p).weld_d3_ms = min p.weld_d3_ms 200 ∧
    (WeldCtl.clampParams p).preheat_ms = min p.preheat_ms 200 := by
  refine ⟨?_, ?_, ?_, ?_⟩ <;>
  · simp only [WeldCtl.clampParams, WeldCtl.MAX_WELD_MS]
    split_ifs <;> omega

/-- C2 witness: a re-entrant fire at `now = 6000` (boot 0, armed)
while `welding_now` is true is denied `ALREADY_WELDING` and leaves the
state untouched. -/
theorem C2_single_fire_witness :
    (Blackpill.fireRecipe Blackpill.initParams ⟨true, 0, true, 0, 0⟩ 6000).lines =
      [Line.denyAlreadyWelding] ∧
    (WeldCtl.fireRecipe Blackpill.initParams ⟨true, 0, true, 0, 0⟩ 6000).lines =
      [Line.denyAlreadyWelding] :=
  (((C2_single_fire Blackpill.initParams ⟨true, 0, true, 0, 0⟩ 6000).2
    rfl).2.2.2.2.2.2.2.2) (by decide) rfl

/-! ## C5: stage-duration clamping in the executed fire -/

/-- C5: on an executed (granted) fire, `WELD_DONE` reports exactly the
clamped recipe (each stage/preheat duration is `min requested 200`),
and every pulse actually delivered lasts at most 200 ms — never the
requested value.  Both variants. -/
theorem C5_weld_done_clamped (p : Params) (s : SafetyState) (now : Nat)
    (hb : s.boot_ms ≤ now) (h5 : 5000 ≤ now - s.boot_ms)
    (hb32 : now - s.boot_ms < 4294967296)
    (hl : s.last_weld_ms ≤ now) (hc : 500 ≤ now - s.last_weld_ms)
    (hl32 : now - s.last_weld_ms < 4294967296)
    (ha : s.armed = true) (hw : s.welding_now = false) :
    ((Blackpill.clampParams p).weld_d1_ms = min p.weld_d1_ms 200 ∧
     (Blackpill.clampParams p).weld_d2_ms = min p.weld_d2_ms 200 ∧
     (Blackpill.clampParams p).weld_d3_ms = min p.weld_d3_ms 200 ∧
     (Blackpill.clampParams p).preheat_ms = min p.preheat_ms 200) ∧
    (∃ T, (Blackpill.fireRecipe p s now).lines =
      [Line.eventWeldStart, Line.eventWeldDone T (Blackpill.clampParams p)]) ∧
    (∀ pu ∈ (Blackpill.fireRecipe p s now).pulses, pu.ms ≤ 200) ∧
    ((WeldCtl.clampParams p).weld_d1_ms = min p.weld_d1_ms 200 ∧
     (WeldCtl.clampParams p).weld_d2_ms = min p.weld_d2_ms 200 ∧
     (WeldCtl.clampParams p).weld_d3_ms = min p.weld_d3_ms 200 ∧
     (WeldCtl.clampParams p).preheat_ms = min p.preheat_ms 200) ∧
    (∃ T, (WeldCtl.fireRecipe p s now).lines =
      [Line.eventWeldStart, Line.eventWeldDoneUs T (WeldCtl.clampParams p)]) ∧
    (∀ pu ∈ (WeldCtl.fireRecipe p s now).pulses, pu.ms ≤ 200) := by
  obtain ⟨T, pl, he⟩ := bp_fire_grant p s now hb h5 hb32 hl hc hl32 ha hw
  obtain ⟨T2, pl2, he2⟩ := wc_fire_grant p s now hb h5 hb32 hl hc hl32 ha hw
  exact ⟨bp_clamp_min p, ⟨T, by rw [he]⟩, bp_pulses_le p s now,
         wc_clamp_min p, ⟨1000 * T2, by rw [he2]⟩, wc_pulses_le p s now⟩

/-- C5 witness: a recipe requesting 500/300/250 ms stages and a 500 ms
preheat is realized and reported with every duration clamped to
200 ms. -/
theorem C5_weld_done_clamped_witness :
    ((Blackpill.clampParams ⟨3, 500, 10, 300, 0, 250, 100, true, 500, 30, 3⟩).weld_d1_ms =
      min 500 200 ∧
     (Blackpill.clampParams ⟨3, 500, 10, 300, 0, 250, 100, true, 500, 30, 3⟩).weld_d2_ms =
      min 300 200 ∧
     (Blackpill.clampParams ⟨3, 500, 10, 300, 0, 250, 100, true, 500, 30, 3⟩).weld_d3_ms =
      min 250 200 ∧
     (Blackpill.clampParams ⟨3, 500, 10, 300, 0, 250, 100, true, 500, 30, 3⟩).preheat_ms =
      min 500 200) ∧
    (∃ T, (Blackpill.fireRecipe ⟨3, 500, 10, 300, 0, 250, 100, true, 500, 30, 3⟩
        ⟨false, 0, true, 0, 0⟩ 6000).lines =
      [Line.eventWeldStart,
       Line.eventWeldDone T
        (Blackpill.clampParams ⟨3, 500, 10, 300, 0, 250, 100, true, 500, 30, 3⟩)]) ∧
    (∀ pu ∈ (Blackpill.fireRecipe ⟨3, 500, 10, 300, 0, 250, 100, true, 500, 30, 3⟩
        ⟨false, 0, true, 0, 0⟩ 6000).pulses, pu.ms ≤ 200) ∧
    ((WeldCtl.clampParams ⟨3, 500, 10, 300, 0, 250, 100, true, 500, 30, 3⟩).weld_d1_ms =
      min 500 200 ∧
     (WeldCtl.clampParams ⟨3, 500, 10, 300, 0, 250, 100, true, 500, 30, 3⟩).weld_d2_ms =
      min 300 200 ∧
     (WeldCtl.clampParams ⟨3, 500, 10, 300, 0, 250, 100, true, 500, 30, 3⟩).weld_d3_ms =
      min 250 200 ∧
     (WeldCtl.clampParams ⟨3, 500, 10, 300, 0, 250, 100, true, 500, 30, 3⟩).preheat_ms =
      min 500 200) ∧
    (∃ T, (WeldCtl.fireRecipe ⟨3, 500, 10, 300, 0, 250, 100, true, 500, 30, 3⟩
        ⟨false, 0, true, 0, 0⟩ 6000).lines =
      [Line.eventWeldStart,
       Line.eventWeldDoneUs T
        (WeldCtl.clampParams ⟨3, 500, 10, 300, 0, 250, 100, true, 500, 30, 3⟩)]) ∧
    (∀ pu ∈ (WeldCtl.fireRecipe ⟨3, 500, 10, 300, 0, 250, 100, true, 500, 30, 3⟩
        ⟨false, 0, true, 0, 0⟩ 6000).pulses, pu.ms ≤ 200) :=
  C5_weld_done_clamped ⟨3, 500, 10, 300, 0, 250, 100, true, 500, 30, 3⟩
    ⟨false, 0, true, 0, 0⟩ 6000 (by decide) (by decide) (by decide)
    (by decide) (by decide) (by decide) rfl rfl

/-! ## C7: cooldown window between two fires -/

/-- C7: after a granted fire completing at `last_weld_ms`, a second
request less than 500 ms after that completion (boot, arm and busy
checks passing) is denied `COOLDOWN` with exactly the remaining
milliseconds; at or beyond 500 ms it is granted.  Both variants. -/
theorem C7_cooldown_window (p : Params) (s : SafetyState) (now1 now2 : Nat)
    (hb : s.boot_ms ≤ now1) (h5 : 5000 ≤ now1 - s.boot_ms)
    (hb32 : now1 - s.boot_ms < 4294967296)
    (hl : s.last_weld_ms ≤ now1) (hc : 500 ≤ now1 - s.last_weld_ms)
    (hl32 : now1 - s.last_weld_ms < 4294967296)
    (ha : s.armed = true) (hw : s.welding_now = false)
    (h12 : now1 ≤ now2) (hb232 : now2 - s.boot_ms < 4294967296)
    (hble : (Blackpill.fireRecipe p s now1).safety.last_weld_ms ≤ now2)
    (hbl32 : now2 - (Blackpill.fireRecipe p s now1).safety.last_weld_ms < 4294967296)
    (hwle : (WeldCtl.fireRecipe p s now1).safety.last_weld_ms ≤ now2)
    (hwl32 : now2 - (WeldCtl.fireRecipe p s now1).safety.last_weld_ms < 4294967296) :
    (now2 - (Blackpill.fireRecipe p s now1).safety.last_weld_ms < 500 →
      Blackpill.fireRecipe (Blackpill.fireRecipe p s now1).params
          (Blackpill.fireRecipe p s now1).safety now2 =
        ⟨(Blackpill.fireRecipe p s now1).params,
         (Blackpill.fireRecipe p s now1).safety,
         [Line.denyCooldown
           (500 - (now2 - (Blackpill.fireRecipe p s now1).safety.last_weld_ms))],
         []⟩) ∧
    (500 ≤ now2 - (Blackpill.fireRecipe p s now1).safety.last_weld_ms →
      ∃ T, (Blackpill.fireRecipe (Blackpill.fireRecipe p s now1).params
          (Blackpill.fireRecipe p s now1).safety now2).lines =
        [Line.eventWeldStart,
         Line.eventWeldDone T
           (Blackpill.clampParams (Blackpill.fireRecipe p s now1).params)]) ∧
    (now2 - (WeldCtl.fireRecipe p s now1).safety.last_weld_ms < 500 →
      WeldCtl.fireRecipe (WeldCtl.fireRecipe p s now1).params
          (WeldCtl.fireRecipe p s now1).safety now2 =
        ⟨(WeldCtl.fireRecipe p s now1).params,
         (WeldCtl.fireRecipe p s now1).safety,
         [Line.denyCooldown
           (500 - (now2 - (WeldCtl.fireRecipe p s now1).safety.last_weld_ms))],
         []⟩) ∧
    (500 ≤ now2 - (WeldCtl.fireRecipe p s now1).safety.last_weld_ms →
      ∃ T, (WeldCtl.fireRecipe (WeldCtl.fireRecipe p s now1).params
          (WeldCtl.fireRecipe p s now1).safety now2).lines =
        [Line.eventWeldStart,
         Line.eventWeldDoneUs T
           (WeldCtl.clampParams (WeldCtl.fireRecipe p s now1).params)]) := by
  obtain ⟨T, pl, he⟩ := bp_fire_grant p s now1 hb h5 hb32 hl hc hl32 ha hw
  obtain ⟨T2, pl2, he2⟩ := wc_fire_grant p s now1 hb h5 hb32 hl hc hl32 ha hw
  rw [he] at hble hbl32 ⊢
  rw [he2] at hwle hwl32 ⊢
  dsimp only at hble hbl32 hwle hwl32 ⊢
  refine ⟨?_, ?_, ?_, ?_⟩
  · intro hcd
    exact bp_fire_cool _ _ now2 (show s.boot_ms ≤ now2 by omega)
      (show 5000 ≤ now2 - s.boot_ms by omega) hb232 hble hcd ha rfl
  · intro hcd
    obtain ⟨T3, pl3, he3⟩ := bp_fire_grant (Blackpill.clampParams p)
      ⟨false, (now1 + 2 + T) % 4294967296, s.armed, s.armed_until_ms, s.boot_ms⟩ now2
      (show s.boot_ms ≤ now2 by omega) (show 5000 ≤ now2 - s.boot_ms by omega)
      hb232 hble hcd hbl32 ha rfl
    exact ⟨T3, by rw [he3]⟩
  · intro hcd
    exact wc_fire_cool _ _ now2 (show s.boot_ms ≤ now2 by omega)
      (show 5000 ≤ now2 - s.boot_ms by omega) hb232 hwle hcd ha rfl
  · intro hcd
    obtain ⟨T3, pl3, he3⟩ := wc_fire_grant (WeldCtl.clampParams p)
      ⟨false, (now1 + 2 + T2) % 4294967296, s.armed, s.armed_until_ms, s.boot_ms⟩ now2
      (show s.boot_ms ≤ now2 by omega) (show 5000 ≤ now2 - s.boot_ms by omega)
      hb232 hwle hcd hwl32 ha rfl
    exact ⟨1000 * T3, by rw [he3]⟩

/-- C7 witness: with the default recipe, a fire granted at t=6000
completes at t=6012; a second request at t=6100 is denied `COOLDOWN`
with 412 ms remaining (Blackpill) and a second request at t=6600 is
granted (WeldController). -/
theorem C7_cooldown_window_witness :
    (Blackpill.fireRecipe
        (Blackpill.fireRecipe Blackpill.initParams ⟨false, 0, true, 0, 0⟩ 6000).params
        (Blackpill.fireRecipe Blackpill.initParams ⟨false, 0, true, 0, 0⟩ 6000).safety 6100 =
      ⟨(Blackpill.fireRecipe Blackpill.initParams ⟨false, 0, true, 0, 0⟩ 6000).params,
       (Blackpill.fireRecipe Blackpill.initParams ⟨false, 0, true, 0, 0⟩ 6000).safety,
       [Line.denyCooldown (500 - (6100 -
         (Blackpill.fireRecipe Blackpill.initParams
           ⟨false, 0, true, 0, 0⟩ 6000).safety.last_weld_ms))], []⟩) ∧
    (∃ T, (WeldCtl.fireRecipe
        (WeldCtl.fireRecipe Blackpill.initParams ⟨false, 0, true, 0, 0⟩ 6000).params
        (WeldCtl.fireRecipe Blackpill.initParams ⟨false, 0, true, 0, 0⟩ 6000).safety 6600).lines =
      [Line.eventWeldStart,
       Line.eventWeldDoneUs T
         (WeldCtl.clampParams
           (WeldCtl.fireRecipe Blackpill.initParams
             ⟨false, 0, true, 0, 0⟩ 6000).params)]) := by
  constructor
  · exact (C7_cooldown_window Blackpill.initParams ⟨false, 0, true, 0, 0⟩ 6000 6100
      (by decide) (by decide) (by decide) (by decide) (by decide) (by decide)
      rfl rfl (by decide) (by decide) (by decide) (by decide) (by decide)
      (by decide)).1 (by decide)
  · exact (C7_cooldown_window Blackpill.initParams ⟨false, 0, true, 0, 0⟩ 6000 6600
      (by decide) (by decide) (by decide) (by decide) (by decide) (by decide)
      rfl rfl (by decide) (by decide) (by decide) (by decide) (by decide)
      (by decide)).2.2.2 (by decide)

/-! ## Parser branch-reduction lemmas (definitional) -/

theorem bp_arm_red (s : List Char) (p : Params) (st : SafetyState) (now : Nat) :
    Blackpill.parseCommand (strL (r"ARM,") ++ s) p st now =
      (if atoiInt s = 1 then
        ⟨p, { st with armed := true, armed_until_ms := 0 }, [Line.ackArm 1], []⟩
      else
        ⟨p, { st with armed := false, armed_until_ms := 0 }, [Line.ackArm 0], []⟩) := rfl

theorem wc_arm_red (s : List Char) (p : Params) (st : SafetyState) (now : Nat) :
    WeldCtl.handleCmd (strL (r"ARM,") ++ s) p st now =
      (if atoiInt s = 1 then
        ⟨p, { st with armed := true, armed_until_ms := 0 }, [Line.ackArm 1], []⟩
      else
        ⟨p, { st with armed := false, armed_until_ms := 0 }, [Line.ackArm 0], []⟩) := rfl

theorem bp_cmd_pulse_red (s : List Char) (p : Params) (st : SafetyState) (now : Nat) :
    Blackpill.parseCommand (strL (r"CMD,SET,PULSE,") ++ s) p st now =
      (if 0 < atoiInt s ∧ atoiInt s ≤ 200 then
        ⟨{ p with weld_d1_ms := toU16 (atoiInt s) }, st,
         [Line.ackPulse (toU16 (atoiInt s))], []⟩
      else ⟨p, st, [Line.errPulseRange], []⟩) := rfl

theorem bp_cmd_power_red (s : List Char) (p : Params) (st : SafetyState) (now : Nat) :
    Blackpill.parseCommand (strL (r"CMD,SET,POWER,") ++ s) p st now =
      (if 50 ≤ atoiInt s ∧ atoiInt s ≤ 100 then
        ⟨{ p with weld_power_pct := toU8 (atoiInt s) }, st,
         [Line.ackPower (toU8 (atoiInt s))], []⟩
      else ⟨p, st, [Line.errPowerRange], []⟩) := rfl

theorem bp_power_red (s : List Char) (p : Params) (st : SafetyState) (now : Nat) :
    Blackpill.parseCommand (strL (r"SET_POWER,") ++ s) p st now =
      ⟨Blackpill.clampParams { p with weld_power_pct := toU8 (atoiInt s) }, st,
       [Line.ackSetPower
         (Blackpill.clampParams
           { p with weld_power_pct := toU8 (atoiInt s) }).weld_power_pct], []⟩ := rfl

theorem wc_power_red (s : List Char) (p : Params) (st : SafetyState) (now : Nat) :
    WeldCtl.handleCmd (strL (r"SET_POWER,") ++ s) p st now =
      ⟨WeldCtl.clampParams { p with weld_power_pct := toU8 (atoiInt s) }, st,
       [Line.ackSetPower
         (WeldCtl.clampParams
           { p with weld_power_pct := toU8 (atoiInt s) }).weld_power_pct], []⟩ := rfl

theorem bp_pulse_red (s : List Char) (p : Params) (st : SafetyState) (now : Nat) :
    Blackpill.parseCommand (strL (r"SET_PULSE,") ++ s) p st now =
      (if (scanIntsSep s 6).1 ≥ 2 then
        ⟨Blackpill.clampParams
          { p with weld_mode := toU8 ((scanIntsSep s 6).2.getD 0 1),
                   weld_d1_ms := toU16 ((scanIntsSep s 6).2.getD 1 0),
                   weld_gap1_ms := toU16 ((scanIntsSep s 6).2.getD 2 0),
                   weld_d2_ms := toU16 ((scanIntsSep s 6).2.getD 3 0),
                   weld_gap2_ms := toU16 ((scanIntsSep s 6).2.getD 4 0),
                   weld_d3_ms := toU16 ((scanIntsSep s 6).2.getD 5 0) }, st,
         [Line.ackSetPulse
           (Blackpill.clampParams
             { p with weld_mode := toU8 ((scanIntsSep s 6).2.getD 0 1),
                      weld_d1_ms := toU16 ((scanIntsSep s 6).2.getD 1 0),
                      weld_gap1_ms := toU16 ((scanIntsSep s 6).2.getD 2 0),
                      weld_d2_ms := toU16 ((scanIntsSep s 6).2.getD 3 0),
                      weld_gap2_ms := toU16 ((scanIntsSep s 6).2.getD 4 0),
                      weld_d3_ms := toU16 ((scanIntsSep s 6).2.getD 5 0) }).weld_mode], []⟩
      else ⟨p, st, [Line.denyBadSetPulse], []⟩) := rfl

theorem wc_pulse_red (s : List Char) (p : Params) (st : SafetyState) (now : Nat) :
    WeldCtl.handleCmd (strL (r"SET_PULSE,") ++ s) p st now =
      (if (scanIntsSep s 6).1 < 2 then ⟨p, st, [Line.denyBadSetPulse], []⟩
      else
        ⟨WeldCtl.clampParams
          { p with weld_mode := toU8 ((scanIntsSep s 6).2.getD 0 1),
                   weld_d1_ms := toU16 ((scanIntsSep s 6).2.getD 1 0),
                   weld_gap1_ms := toU16 ((scanIntsSep s 6).2.getD 2 0),
                   weld_d2_ms := toU16 ((scanIntsSep s 6).2.getD 3 0),
                   weld_gap2_ms := toU16 ((scanIntsSep s 6).2.getD 4 0),
                   weld_d3_ms := toU16 ((scanIntsSep s 6).2.getD 5 0) }, st,
         [Line.ackSetPulse
           (WeldCtl.clampParams
             { p with weld_mode := toU8 ((scanIntsSep s 6).2.getD 0 1),
                      weld_d1_ms := toU16 ((scanIntsSep s 6).2.getD 1 0),
                      weld_gap1_ms := toU16 ((scanIntsSep s 6).2.getD 2 0),
                      weld_d2_ms := toU16 ((scanIntsSep s 6).2.getD 3 0),
                      weld_gap2_ms := toU16 ((scanIntsSep s 6).2.getD 4 0),
                      weld_d3_ms := toU16 ((scanIntsSep s 6).2.getD 5 0) }).weld_mode], []⟩) := rfl

theorem bp_preheat_red (s : List Char) (p : Params) (st : SafetyState) (now : Nat) :
    Blackpill.parseCommand (strL (r"SET_PREHEAT,") ++ s) p st now =
      (if (scanIntsSep s 4).1 ≥ 3 then
        ⟨Blackpill.clampParams
          { p with preheat_enabled := (scanIntsSep s 4).2.getD 0 0 == 1,
                   preheat_ms := toU16 ((scanIntsSep s 4).2.getD 1 0),
                   preheat_pct := toU8 ((scanIntsSep s 4).2.getD 2 0),
                   preheat_gap_ms := if (scanIntsSep s 4).1 ≥ 4
                                     then toU16 ((scanIntsSep s 4).2.getD 3 0)
                                     else p.preheat_gap_ms }, st,
         [Line.ackSetPreheat
           (if (scanIntsSep s 4).2.getD 0 0 == 1 then 1 else 0)], []⟩
      else ⟨p, st, [Line.denyBadSetPreheat], []⟩) := rfl

theorem wc_preheat_red (s : List Char) (p : Params) (st : SafetyState) (now : Nat) :
    WeldCtl.handleCmd (strL (r"SET_PREHEAT,") ++ s) p st now =
      (let cs := strL (r"SET_PREHEAT,") ++ s
       let c1 := indexOfFrom cs ',' 12
       let c2 := indexOfFrom cs ',' (c1 + 1).toNat
       let c3 := indexOfFrom cs ',' (c2 + 1).toNat
       if c1 < 0 ∨ c2 < 0 ∨ c3 < 0 then ⟨p, st, [Line.denyBadSetPreheat], []⟩
       else
         ⟨WeldCtl.clampParams
           { p with preheat_enabled := atoiInt (substrL cs 12 c1.toNat) == 1,
                    preheat_ms := toU16 (atoiInt (substrL cs (c1.toNat + 1) c2.toNat)),
                    preheat_pct := toU8 (atoiInt (substrL cs (c2.toNat + 1) c3.toNat)),
                    preheat_gap_ms := toU16 (atoiInt (cs.drop (c3.toNat + 1))) },
          st,
          [Line.ackSetPreheat
            (if atoiInt (substrL cs 12 c1.toNat) == 1 then 1 else 0)], []⟩) := rfl

/-! ## C4: SET_POWER clamping -/

/-- C4 counterexample: `SET_POWER,300` stores 50, not 100, in both
variants — the argument passes through a `uint8_t` cast (300 mod 256 =
44) before the 50..100 clamp, so the claim's "pct > 100 stores exactly
100" fails at pct = 300. -/
theorem C4_counterexample :
    (Blackpill.parseCommand (strL (r"SET_POWER,300")) Blackpill.initParams
      ⟨false, 0, false, 0, 0⟩ 0).params.weld_power_pct = 50 ∧
    (WeldCtl.handleCmd (strL (r"SET_POWER,300")) WeldCtl.initParams
      ⟨false, 0, true, 0, 0⟩ 0).params.weld_power_pct = 50 ∧
    (50 : Nat) ≠ 100 := by decide

/-- C4 (amended): for `SET_POWER,<pct>` with `0 ≤ pct ≤ 255` (the
range unchanged by the `uint8_t` conversion) the stored power is
exactly 50 when `pct < 50`, exactly 100 when `pct > 100`, and `pct`
itself otherwise, and the acknowledgement reports the stored value;
for larger arguments the `uint8_t` cast first reduces `pct` mod 256
(see the counterexample).  Both variants. -/
theorem C4_set_power_clamp (s : List Char) (n : Nat) (p : Params)
    (st : SafetyState) (now : Nat)
    (hs : atoiInt s = (n : Int)) (hn : n ≤ 255) :
    ((Blackpill.parseCommand (strL (r"SET_POWER,") ++ s) p st now).params.weld_power_pct
      = (if n < 50 then 50 else if 100 < n then 100 else n)) ∧
    ((Blackpill.parseCommand (strL (r"SET_POWER,") ++ s) p st now).lines =
      [Line.ackSetPower
        ((Blackpill.parseCommand (strL (r"SET_POWER,") ++ s) p st now).params.weld_power_pct)]) ∧
    ((WeldCtl.handleCmd (strL (r"SET_POWER,") ++ s) p st now).params.weld_power_pct
      = (if n < 50 then 50 else if 100 < n then 100 else n)) ∧
    ((WeldCtl.handleCmd (strL (r"SET_POWER,") ++ s) p st now).lines =
      [Line.ackSetPower
        ((WeldCtl.handleCmd (strL (r"SET_POWER,") ++ s) p st now).params.weld_power_pct)]) := by
  have hu : toU8 (atoiInt s) = n := by
    rw [hs]; unfold toU8; omega
  refine ⟨?_, ?_, ?_, ?_⟩
  · rw [bp_power_red]
    rw [hu]
    simp only [Blackpill.clampParams]
    split_ifs <;> omega
  · rw [bp_power_red]
  · rw [wc_power_red]
    rw [hu]
    simp only [WeldCtl.clampParams]
    split_ifs <;> omega
  · rw [wc_power_red]

/-- C4 witness: `SET_POWER,40` stores and acknowledges 50 in both
variants. -/
theorem C4_set_power_clamp_witness :
    ((Blackpill.parseCommand (strL (r"SET_POWER,") ++ strL (r"40"))
        Blackpill.initParams ⟨false, 0, false, 0, 0⟩ 0).params.weld_power_pct
      = (if 40 < 50 then 50 else if 100 < 40 then 100 else 40)) ∧
    ((Blackpill.parseCommand (strL (r"SET_POWER,") ++ strL (r"40"))
        Blackpill.initParams ⟨false, 0, false, 0, 0⟩ 0).lines =
      [Line.ackSetPower
        ((Blackpill.parseCommand (strL (r"SET_POWER,") ++ strL (r"40"))
          Blackpill.initParams ⟨false, 0, false, 0, 0⟩ 0).params.weld_power_pct)]) ∧
    ((WeldCtl.handleCmd (strL (r"SET_POWER,") ++ strL (r"40"))
        Blackpill.initParams ⟨false, 0, false, 0, 0⟩ 0).params.weld_power_pct
      = (if 40 < 50 then 50 else if 100 < 40 then 100 else 40)) ∧
    ((WeldCtl.handleCmd (strL (r"SET_POWER,") ++ strL (r"40"))
        Blackpill.initParams ⟨false, 0, false, 0, 0⟩ 0).lines =
      [Line.ackSetPower
        ((WeldCtl.handleCmd (strL (r"SET_POWER,") ++ strL (r"40"))
          Blackpill.initParams ⟨false, 0, false, 0, 0⟩ 0).params.weld_power_pct)]) :=
  C4_set_power_clamp (strL (r"40")) 40 Blackpill.initParams
    ⟨false, 0, false, 0, 0⟩ 0 (by decide) (by decide)

/-! ## C10: legacy CMD,SET commands reject out-of-range input -/

/-- C10: the Blackpill legacy commands `CMD,SET,PULSE,<d1>` and
`CMD,SET,POWER,<v>` reject out-of-range input (`ERR,PULSE_RANGE` /
`ERR,POWER_RANGE`, no state change) and store and acknowledge in-range
input (`ACK,PULSE=<d1>` / `ACK,POWER=<v>`). -/
theorem C10_legacy_range (s : List Char) (v : Int) (p : Params)
    (st : SafetyState) (now : Nat) (hs : atoiInt s = v) :
    (0 < v ∧ v ≤ 200 →
      Blackpill.parseCommand (strL (r"CMD,SET,PULSE,") ++ s) p st now =
        ⟨{ p with weld_d1_ms := v.toNat }, st, [Line.ackPulse v.toNat], []⟩) ∧
    (¬(0 < v ∧ v ≤ 200) →
      Blackpill.parseCommand (strL (r"CMD,SET,PULSE,") ++ s) p st now =
        ⟨p, st, [Line.errPulseRange], []⟩) ∧
    (50 ≤ v ∧ v ≤ 100 →
      Blackpill.parseCommand (strL (r"CMD,SET,POWER,") ++ s) p st now =
        ⟨{ p with weld_power_pct := v.toNat }, st, [Line.ackPower v.toNat], []⟩) ∧
    (¬(50 ≤ v ∧ v ≤ 100) →
      Blackpill.parseCommand (strL (r"CMD,SET,POWER,") ++ s) p st now =
        ⟨p, st, [Line.errPowerRange], []⟩) := by
  subst hs
  refine ⟨?_, ?_, ?_, ?_⟩
  · intro h
    have hv : toU16 (atoiInt s) = (atoiInt s).toNat := by
      unfold toU16; omega
    rw [bp_cmd_pulse_red, if_pos h, hv]
  · intro h
    rw [bp_cmd_pulse_red, if_neg h]
  · intro h
    have hv : toU8 (atoiInt s) = (atoiInt s).toNat := by
      unfold toU8; omega
    rw [bp_cmd_power_red, if_pos h, hv]
  · intro h
    rw [bp_cmd_power_red, if_neg h]

/-- C10 witness: `CMD,SET,PULSE,150` stores 150 and acknowledges;
`CMD,SET,PULSE,250` and `CMD,SET,POWER,40` are rejected with no state
change. -/
theorem C10_legacy_range_witness :
    (Blackpill.parseCommand (strL (r"CMD,SET,PULSE,") ++ strL (r"150"))
        Blackpill.initParams ⟨false, 0, false, 0, 0⟩ 0 =
      ⟨{ Blackpill.initParams with weld_d1_ms := (150 : Int).toNat },
       ⟨false, 0, false, 0, 0⟩, [Line.ackPulse (150 : Int).toNat], []⟩) ∧
    (Blackpill.parseCommand (strL (r"CMD,SET,PULSE,") ++ strL (r"250"))
        Blackpill.initParams ⟨false, 0, false, 0, 0⟩ 0 =
      ⟨Blackpill.initParams, ⟨false, 0, false, 0, 0⟩, [Line.errPulseRange], []⟩) ∧
    (Blackpill.parseCommand (strL (r"CMD,SET,POWER,") ++ strL (r"40"))
        Blackpill.initParams ⟨false, 0, false, 0, 0⟩ 0 =
      ⟨Blackpill.initParams, ⟨false, 0, false, 0, 0⟩, [Line.errPowerRange], []⟩) :=
  ⟨(C10_legacy_range (strL (r"150")) 150 Blackpill.initParams
      ⟨false, 0, false, 0, 0⟩ 0 (by decide)).1 (by decide),
   (C10_legacy_range (strL (r"250")) 250 Blackpill.initParams
      ⟨false, 0, false, 0, 0⟩ 0 (by decide)).2.1 (by decide),
   (C10_legacy_range (strL (r"40")) 40 Blackpill.initParams
      ⟨false, 0, false, 0, 0⟩ 0 (by decide)).2.2.2 (by decide)⟩

/-! ## C9: SET_PREHEAT field-count validation -/

/-- C9 counterexample: the WeldController variant DENIES a
`SET_PREHEAT` line with exactly 3 fields (gap omitted) — its comma
scan requires all four fields — whereas the claim says 3 fields
succeed.  `SET_PREHEAT,1,100,50` is denied with no state mutation. -/
theorem C9_counterexample :
    (WeldCtl.handleCmd (strL (r"SET_PREHEAT,1,100,50")) Blackpill.initParams
      ⟨false, 0, true, 0, 0⟩ 0).lines = [Line.denyBadSetPreheat] ∧
    (WeldCtl.handleCmd (strL (r"SET_PREHEAT,1,100,50")) Blackpill.initParams
      ⟨false, 0, true, 0, 0⟩ 0).params = Blackpill.initParams ∧
    [Line.denyBadSetPreheat] ≠ [Line.ackSetPreheat 1] := by decide

/-- C9 (amended): a `SET_PREHEAT` line in which fewer than 3 numeric
fields parse is answered `DENY,BAD_SET_PREHEAT` with no state mutation
(both variants: the Blackpill by `sscanf` count, the WeldController
whenever its comma scan fails); a line with exactly 3 fields (gap
omitted) succeeds in the BLACKPILL variant only, storing the clamped
enabled/ms/pct, leaving `preheat_gap_ms` unchanged, and acknowledging
`ACK,SET_PREHEAT,en=<0|1>` — the WeldController variant instead
requires all four fields (see the counterexample). -/
theorem C9_set_preheat_fields (s : List Char) (p : Params)
    (st : SafetyState) (now : Nat) :
    ((scanIntsSep s 4).1 < 3 →
      Blackpill.parseCommand (strL (r"SET_PREHEAT,") ++ s) p st now =
        ⟨p, st, [Line.denyBadSetPreheat], []⟩) ∧
    (∀ v1 v2 v3 : Int, scanIntsSep s 4 = (3, [v1, v2, v3]) →
      Blackpill.parseCommand (strL (r"SET_PREHEAT,") ++ s) p st now =
        ⟨Blackpill.clampParams
          { p with preheat_enabled := v1 == 1,
                   preheat_ms := toU16 v2,
                   preheat_pct := toU8 v3 }, st,
         [Line.ackSetPreheat (if v1 == 1 then 1 else 0)], []⟩ ∧
      (Blackpill.clampParams
        { p with preheat_enabled := v1 == 1,
                 preheat_ms := toU16 v2,
                 preheat_pct := toU8 v3 }).preheat_gap_ms = p.preheat_gap_ms) ∧
    (indexOfFrom (strL (r"SET_PREHEAT,") ++ s) ',' 12 < 0 ∨
      indexOfFrom (strL (r"SET_PREHEAT,") ++ s) ','
        (indexOfFrom (strL (r"SET_PREHEAT,") ++ s) ',' 12 + 1).toNat < 0 ∨
      indexOfFrom (strL (r"SET_PREHEAT,") ++ s) ','
        (indexOfFrom (strL (r"SET_PREHEAT,") ++ s) ','
          (indexOfFrom (strL (r"SET_PREHEAT,") ++ s) ',' 12 + 1).toNat + 1).toNat < 0 →
      WeldCtl.handleCmd (strL (r"SET_PREHEAT,") ++ s) p st now =
        ⟨p, st, [Line.denyBadSetPreheat], []⟩) := by
  refine ⟨?_, ?_, ?_⟩
  · intro h
    rw [bp_preheat_red, if_neg (by omega)]
  · intro v1 v2 v3 h
    rw [bp_preheat_red, h]
    refine ⟨by norm_num, rfl⟩
  · intro h
    rw [wc_preheat_red]
    dsimp only
    rw [if_pos h]

/-- C9 witness: `SET_PREHEAT,1,2` (2 fields) is denied by the
Blackpill parser; `SET_PREHEAT,1,100,50` (3 fields) succeeds there
with the gap untouched; the same 3-field tail satisfies the
WeldController deny condition. -/
theorem C9_set_preheat_fields_witness :
    (Blackpill.parseCommand (strL (r"SET_PREHEAT,") ++ strL (r"1,2"))
        Blackpill.initParams ⟨false, 0, false, 0, 0⟩ 0 =
      ⟨Blackpill.initParams, ⟨false, 0, false, 0, 0⟩,
       [Line.denyBadSetPreheat], []⟩) ∧
    (Blackpill.parseCommand (strL (r"SET_PREHEAT,") ++ strL (r"1,100,50"))
        Blackpill.initParams ⟨false, 0, false, 0, 0⟩ 0 =
      ⟨Blackpill.clampParams
        { Blackpill.initParams with
            preheat_enabled := (1 : Int) == 1,
            preheat_ms := toU16 100,
            preheat_pct := toU8 50 }, ⟨false, 0, false, 0, 0⟩,
       [Line.ackSetPreheat (if (1 : Int) == 1 then 1 else 0)], []⟩ ∧
     (Blackpill.clampParams
       { Blackpill.initParams with
           preheat_enabled := (1 : Int) == 1,
           preheat_ms := toU16 100,
           preheat_pct := toU8 50 }).preheat_gap_ms =
       Blackpill.initParams.preheat_gap_ms) ∧
    (WeldCtl.handleCmd (strL (r"SET_PREHEAT,") ++ strL (r"1,100,50"))
        Blackpill.initParams ⟨false, 0, false, 0, 0⟩ 0 =
      ⟨Blackpill.initParams, ⟨false, 0, false, 0, 0⟩,
       [Line.denyBadSetPreheat], []⟩) :=
  ⟨(C9_set_preheat_fields (strL (r"1,2")) Blackpill.initParams
      ⟨false, 0, false, 0, 0⟩ 0).1 (by decide),
   (C9_set_preheat_fields (strL (r"1,100,50")) Blackpill.initParams
      ⟨false, 0, false, 0, 0⟩ 0).2.1 1 100 50 (by decide),
   (C9_set_preheat_fields (strL (r"1,100,50")) Blackpill.initParams
      ⟨false, 0, false, 0, 0⟩ 0).2.2 (by decide)⟩

/-! ## Fire outcome case analysis -/

/-- Every outcome of the Blackpill `fireRecipe` is one of: the four
denials (with the entry state unchanged) or a completed cycle emitting
`WELD_START` then `WELD_DONE`. -/
theorem bp_fire_cases (p : Params) (s : SafetyState) (now : Nat)
    (P : FireOut → Prop)
    (h1 : ∀ m, P ⟨p, s, [Line.denyBootInhibit m], []⟩)
    (h2 : P ⟨p, s, [Line.denyNotArmed], []⟩)
    (h3 : P ⟨p, s, [Line.denyAlreadyWelding], []⟩)
    (h4 : ∀ m, P ⟨p, s, [Line.denyCooldown m], []⟩)
    (h5 : ∀ T q s2 pl, P ⟨q, s2, [Line.eventWeldStart, Line.eventWeldDone T q], pl⟩) :
    P (Blackpill.fireRecipe p s now) := by
  simp only [Blackpill.fireRecipe, bp_applyArmTimeout_id]
  by_cases g1 : sub32 now s.boot_ms < Blackpill.BOOT_INHIBIT_MS
  · rw [if_pos g1]
    exact h1 _
  rw [if_neg g1]
  by_cases g2 : s.armed = false
  · rw [if_pos g2]
    exact h2
  rw [if_neg g2]
  by_cases g3 : s.welding_now = true
  · rw [if_pos g3]
    exact h3
  rw [if_neg g3]
  by_cases g4 : sub32 now s.last_weld_ms < Blackpill.WELD_COOLDOWN_MS
  · rw [if_pos g4]
    exact h4 _
  rw [if_neg g4]
  exact h5 _ _ _ _

/-- Outcome case analysis for the WeldController `fireRecipe`. -/
theorem wc_fire_cases (p : Params) (s : SafetyState) (now : Nat)
    (P : FireOut → Prop)
    (h1 : ∀ m, P ⟨p, s, [Line.denyBootInhibit m], []⟩)
    (h2 : P ⟨p, s, [Line.denyNotArmed], []⟩)
    (h3 : P ⟨p, s, [Line.denyAlreadyWelding], []⟩)
    (h4 : ∀ m, P ⟨p, s, [Line.denyCooldown m], []⟩)
    (h5 : ∀ T q s2 pl, P ⟨q, s2, [Line.eventWeldStart, Line.eventWeldDoneUs T q], pl⟩) :
    P (WeldCtl.fireRecipe p s now) := by
  simp only [WeldCtl.fireRecipe, wc_applyArmTimeout_id]
  by_cases g1 : sub32 now s.boot_ms < WeldCtl.BOOT_INHIBIT_MS
  · rw [if_pos g1]
    exact h1 _
  rw [if_neg g1]
  by_cases g2 : s.armed = false
  · rw [if_pos g2]
    exact h2
  rw [if_neg g2]
  by_cases g3 : s.welding_now = true
  · rw [if_pos g3]
    exact h3
  rw [if_neg g3]
  by_cases g4 : sub32 now s.last_weld_ms < WeldCtl.WELD_COOLDOWN_MS
  · rw [if_pos g4]
    exact h4 _
  rw [if_neg g4]
  exact h5 _ _ _ _

/-- A fire request always produces at least one output line. -/
theorem bp_fire_lines_ne (p : Params) (s : SafetyState) (now : Nat) :
    (Blackpill.fireRecipe p s now).lines ≠ [] :=
  bp_fire_cases p s now (fun o => o.lines ≠ [])
    (fun _ => by simp) (by simp) (by simp) (fun _ => by simp)
    (fun _ _ _ _ => by simp)

/-- A fire request never emits `EVENT,PEDAL_PRESS` itself. -/
theorem bp_fire_no_press (p : Params) (s : SafetyState) (now : Nat) :
    Line.eventPedalPress ∉ (Blackpill.fireRecipe p s now).lines :=
  bp_fire_cases p s now (fun o => Line.eventPedalPress ∉ o.lines)
    (fun _ => by simp) (by simp) (by simp) (fun _ => by simp)
    (fun _ _ _ _ => by simp)

/-! ## C8: parser response discipline -/

/-- C8 counterexample: the WeldController `handleCmd` emits NO
response at all for an unrecognized line (`FOO`), where the claim
demands exactly one response (`ERR,UNKNOWN_CMD`); the Blackpill parser
does answer `ERR,UNKNOWN_CMD`. -/
theorem C8_counterexample :
    (WeldCtl.handleCmd (strL (r"FOO")) Blackpill.initParams
      ⟨false, 0, true, 0, 0⟩ 0).lines = [] ∧
    (Blackpill.parseCommand (strL (r"FOO")) Blackpill.initParams
      ⟨false, 0, true, 0, 0⟩ 0).lines = [Line.errUnknownCmd] ∧
    ([] : List Line) ≠ [Line.errUnknownCmd] := by decide

/-- C8 (amended): the Blackpill parser emits at least one response
line for every input line, with unrecognized lines answered exactly
`ERR,UNKNOWN_CMD` and no state mutation (the parser is a total
function: it never terminates or faults); the WeldController parser
emits at least one line for its recognized command set but emits
NOTHING (and mutates nothing) for unrecognized lines — it has no
`ERR,UNKNOWN_CMD` fallback. -/
theorem C8_parser_response (cs : List Char) (p : Params)
    (st : SafetyState) (now : Nat) :
    (Blackpill.parseCommand cs p st now).lines ≠ [] ∧
    (Blackpill.recognized cs = false →
      Blackpill.parseCommand cs p st now = ⟨p, st, [Line.errUnknownCmd], []⟩) ∧
    (WeldCtl.recognized cs = false →
      WeldCtl.handleCmd cs p st now = ⟨p, st, [], []⟩) ∧
    (WeldCtl.recognized cs = true →
      (WeldCtl.handleCmd cs p st now).lines ≠ []) := by
  refine ⟨?_, ?_, ?_, ?_⟩
  · simp only [Blackpill.parseCommand]
    by_cases g1 : startsWith (strL (r"ARM,")) cs = true
    · rw [if_pos g1]
      split_ifs <;> simp
    rw [if_neg g1]
    by_cases g2 : startsWith (strL (r"CMD,SET,PULSE,")) cs = true
    · rw [if_pos g2]
      split_ifs <;> simp
    rw [if_neg g2]
    by_cases g3 : startsWith (strL (r"SET_PULSE,")) cs = true
    · rw [if_pos g3]
      split_ifs <;> simp
    rw [if_neg g3]
    by_cases g4 : startsWith (strL (r"CMD,SET,POWER,")) cs = true
    · rw [if_pos g4]
      split_ifs <;> simp
    rw [if_neg g4]
    by_cases g5 : startsWith (strL (r"SET_POWER,")) cs = true
    · rw [if_pos g5]
      simp
    rw [if_neg g5]
    by_cases g6 : startsWith (strL (r"SET_PREHEAT,")) cs = true
    · rw [if_pos g6]
      split_ifs <;> simp
    rw [if_neg g6]
    by_cases g7 : cs = strL (r"CMD,FIRE")
    · rw [if_pos g7]
      exact bp_fire_lines_ne _ _ _
    rw [if_neg g7]
    by_cases g8 : cs = strL (r"CMD,ENABLE")
    · rw [if_pos g8]
      simp
    rw [if_neg g8]
    by_cases g9 : cs = strL (r"CMD,DISABLE")
    · rw [if_pos g9]
      simp
    rw [if_neg g9]
    by_cases g10 : cs = strL (r"STATUS") ∨ cs = strL (r"CMD,STATUS")
    · rw [if_pos g10]
      simp
    rw [if_neg g10]
    simp
  · intro hr
    have h1 : ¬startsWith (strL (r"ARM,")) cs = true := fun hx => by
      simp [Blackpill.recognized, hx] at hr
    have h2 : ¬startsWith (strL (r"CMD,SET,PULSE,")) cs = true := fun hx => by
      simp [Blackpill.recognized, hx] at hr
    have h3 : ¬startsWith (strL (r"SET_PULSE,")) cs = true := fun hx => by
      simp [Blackpill.recognized, hx] at hr
    have h4 : ¬startsWith (strL (r"CMD,SET,POWER,")) cs = true := fun hx => by
      simp [Blackpill.recognized, hx] at hr
    have h5 : ¬startsWith (strL (r"SET_POWER,")) cs = true := fun hx => by
      simp [Blackpill.recognized, hx] at hr
    have h6 : ¬startsWith (strL (r"SET_PREHEAT,")) cs = true := fun hx => by
      simp [Blackpill.recognized, hx] at hr
    have h7 : ¬cs = strL (r"CMD,FIRE") := fun hx => by
      simp [Blackpill.recognized, hx] at hr
    have h8 : ¬cs = strL (r"CMD,ENABLE") := fun hx => by
      simp [Blackpill.recognized, hx] at hr
    have h9 : ¬cs = strL (r"CMD,DISABLE") := fun hx => by
      simp [Blackpill.recognized, hx] at hr
    have h10 : ¬cs = strL (r"STATUS") := fun hx => by
      simp [Blackpill.recognized, hx] at hr
    have h11 : ¬cs = strL (r"CMD,STATUS") := fun hx => by
      simp [Blackpill.recognized, hx] at hr
    simp only [Blackpill.parseCommand]
    rw [if_neg (by simp [h1]), if_neg (by simp [h2]), if_neg (by simp [h3]),
      if_neg (by simp [h4]), if_neg (by simp [h5]), if_neg (by simp [h6]),
      if_neg h7, if_neg h8, if_neg h9, if_neg (by simp [h10, h11])]
  · intro hr
    have h1 : ¬startsWith (strL (r"ARM,")) cs = true := fun hx => by
      simp [WeldCtl.recognized, hx] at hr
    have h2 : ¬startsWith (strL (r"SET_PULSE,")) cs = true := fun hx => by
      simp [WeldCtl.recognized, hx] at hr
    have h3 : ¬startsWith (strL (r"SET_POWER,")) cs = true := fun hx => by
      simp [WeldCtl.recognized, hx] at hr
    have h4 : ¬startsWith (strL (r"SET_PREHEAT,")) cs = true := fun hx => by
      simp [WeldCtl.recognized, hx] at hr
    have h5 : ¬cs = strL (r"STATUS") := fun hx => by
      simp [WeldCtl.recognized, hx] at hr
    simp only [WeldCtl.handleCmd]
    rw [if_neg (by simp [h1]), if_neg (by simp [h2]), if_neg (by simp [h3]),
      if_neg (by simp [h4]), if_neg h5]
  · intro hr
    simp only [WeldCtl.handleCmd]
    by_cases g1 : startsWith (strL (r"ARM,")) cs = true
    · rw [if_pos g1]
      split_ifs <;> simp
    rw [if_neg g1]
    by_cases g2 : startsWith (strL (r"SET_PULSE,")) cs = true
    · rw [if_pos g2]
      split_ifs <;> simp
    rw [if_neg g2]
    by_cases g3 : startsWith (strL (r"SET_POWER,")) cs = true
    · rw [if_pos g3]
      simp
    rw [if_neg g3]
    by_cases g4 : startsWith (strL (r"SET_PREHEAT,")) cs = true
    · rw [if_pos g4]
      split_ifs <;> simp
    rw [if_neg g4]
    by_cases g5 : cs = strL (r"STATUS")
    · rw [if_pos g5]
      simp
    exfalso
    simp [WeldCtl.recognized, g1, g2, g3, g4, g5] at hr

/-- C8 witness: `FOO` gets exactly `ERR,UNKNOWN_CMD` from the
Blackpill parser (and a nonempty response), nothing from the
WeldController parser; `ARM,1` gets a nonempty response from the
WeldController parser. -/
theorem C8_parser_response_witness :
    (Blackpill.parseCommand (strL (r"FOO")) Blackpill.initParams
      ⟨false, 0, true, 0, 0⟩ 0).lines ≠ [] ∧
    Blackpill.parseCommand (strL (r"FOO")) Blackpill.initParams
      ⟨false, 0, true, 0, 0⟩ 0 =
      ⟨Blackpill.initParams, ⟨false, 0, true, 0, 0⟩, [Line.errUnknownCmd], []⟩ ∧
    WeldCtl.handleCmd (strL (r"FOO")) Blackpill.initParams
      ⟨false, 0, true, 0, 0⟩ 0 =
      ⟨Blackpill.initParams, ⟨false, 0, true, 0, 0⟩, [], []⟩ ∧
    (WeldCtl.handleCmd (strL (r"ARM,1")) Blackpill.initParams
      ⟨false, 0, true, 0, 0⟩ 0).lines ≠ [] :=
  ⟨(C8_parser_response (strL (r"FOO")) Blackpill.initParams
      ⟨false, 0, true, 0, 0⟩ 0).1,
   (C8_parser_response (strL (r"FOO")) Blackpill.initParams
      ⟨false, 0, true, 0, 0⟩ 0).2.1 (by decide),
   (C8_parser_response (strL (r"FOO")) Blackpill.initParams
      ⟨false, 0, true, 0, 0⟩ 0).2.2.1 (by decide),
   (C8_parser_response (strL (r"ARM,1")) Blackpill.initParams
      ⟨false, 0, true, 0, 0⟩ 0).2.2.2 (by decide)⟩

/-! ## Pedal debounce lemmas -/

theorem sub32_self (a : Nat) : sub32 a a = 0 := by
  unfold sub32
  omega

/-- A raw transition restarts the debounce window: the sample records
the new level and timestamp and nothing else happens. -/
theorem bp_poll_change (ped : PedalState) (r : Bool) (t : Nat)
    (p : Params) (s : SafetyState) (hne : r ≠ ped.lastRaw) :
    Blackpill.pollPedal ped r t p s = ⟨⟨r, ped.stable, t⟩, p, s, [], []⟩ := by
  simp only [Blackpill.pollPedal, Blackpill.PEDAL_DEBOUNCE_MS]
  rw [if_pos hne]
  dsimp only
  rw [if_neg (show ¬40 ≤ sub32 t t by simp [sub32_self])]

/-- A steady sample inside the debounce window is a no-op. -/
theorem bp_poll_steady_within (ped : PedalState) (r : Bool) (t : Nat)
    (p : Params) (s : SafetyState) (heq : r = ped.lastRaw)
    (hlt : sub32 t ped.lastChange < 40) :
    Blackpill.pollPedal ped r t p s = ⟨ped, p, s, [], []⟩ := by
  simp only [Blackpill.pollPedal, Blackpill.PEDAL_DEBOUNCE_MS]
  rw [if_neg (show ¬r ≠ ped.lastRaw by simp [heq])]
  rw [if_neg (show ¬40 ≤ sub32 t ped.lastChange by omega)]

/-- A steady sample whose level already equals the stable level is a
no-op whatever the window. -/
theorem bp_poll_steady_same (ped : PedalState) (r : Bool) (t : Nat)
    (p : Params) (s : SafetyState) (heq : r = ped.lastRaw)
    (hst : r = ped.stable) :
    Blackpill.pollPedal ped r t p s = ⟨ped, p, s, [], []⟩ := by
  simp only [Blackpill.pollPedal, Blackpill.PEDAL_DEBOUNCE_MS]
  rw [if_neg (show ¬r ≠ ped.lastRaw by simp [heq])]
  by_cases d1 : 40 ≤ sub32 t ped.lastChange
  · rw [if_pos d1, if_neg (show ¬r ≠ ped.stable by simp [hst])]
  · rw [if_neg d1]

/-- A low level held past the debounce window commits the press edge:
`EVENT,PEDAL_PRESS` is emitted and the fire entry point invoked. -/
theorem bp_poll_commit_press (ped : PedalState) (t : Nat)
    (p : Params) (s : SafetyState)
    (hlr : ped.lastRaw = false) (hstb : ped.stable = true)
    (hw : 40 ≤ sub32 t ped.lastChange) :
    Blackpill.pollPedal ped false t p s =
      ⟨⟨false, false, ped.lastChange⟩,
       (Blackpill.fireRecipe p s t).params,
       (Blackpill.fireRecipe p s t).safety,
       Line.eventPedalPress :: (Blackpill.fireRecipe p s t).lines,
       (Blackpill.fireRecipe p s t).pulses⟩ := by
  obtain ⟨lr, stb, lc⟩ := ped
  simp only at hlr hstb hw
  subst hlr
  subst hstb
  simp [Blackpill.pollPedal, Blackpill.PEDAL_DEBOUNCE_MS, hw]

/-- A released (high) sample never emits anything and never fires. -/
theorem bp_poll_release (ped : PedalState) (t : Nat)
    (p : Params) (s : SafetyState) :
    (Blackpill.pollPedal ped true t p s).params = p ∧
    (Blackpill.pollPedal ped true t p s).safety = s ∧
    (Blackpill.pollPedal ped true t p s).lines = [] ∧
    (Blackpill.pollPedal ped true t p s).pulses = [] := by
  simp only [Blackpill.pollPedal, Blackpill.PEDAL_DEBOUNCE_MS]
  split_ifs <;> simp_all

/-- Steady samples at the stable level leave the whole run unchanged
and silent. -/
theorem bp_run_quiet (samples : List (Nat × Bool)) (ped : PedalState)
    (p : Params) (s : SafetyState)
    (he : ped.lastRaw = ped.stable)
    (hs : ∀ x ∈ samples, x.2 = ped.stable) :
    Blackpill.runPedal samples ped p s = ⟨ped, p, s, [], []⟩ := by
  induction samples with
  | nil => rfl
  | cons hd tl ih =>
    obtain ⟨t, r⟩ := hd
    have hr : r = ped.stable := hs (t, r) (by simp)
    simp only [Blackpill.runPedal]
    rw [bp_poll_steady_same ped r t p s (hr.trans he.symm) hr]
    rw [ih (fun x hx => hs x (by simp [hx]))]
    rfl

/-- Deviating samples inside the 40 ms window leave the debounce state
pending and silent. -/
theorem bp_run_within (mids : List (Nat × Bool)) (t0 : Nat) (st : Bool)
    (p : Params) (s : SafetyState)
    (hm : ∀ x ∈ mids, x.2 = !st ∧ t0 ≤ x.1 ∧ x.1 < t0 + 40) :
    Blackpill.runPedal mids ⟨!st, st, t0⟩ p s =
      ⟨⟨!st, st, t0⟩, p, s, [], []⟩ := by
  induction mids with
  | nil => rfl
  | cons hd tl ih =>
    obtain ⟨t, r⟩ := hd
    obtain ⟨hr, hge, hlt⟩ := hm (t, r) (by simp)
    simp only at hr hge hlt
    simp only [Blackpill.runPedal]
    rw [bp_poll_steady_within ⟨!st, st, t0⟩ r t p s hr
      (by rw [sub32_eq_sub _ _ hge (by omega)]; omega)]
    rw [ih (fun x hx => hm x (by simp [hx]))]
    rfl

/-- WC: a raw transition restarts the debounce window. -/
theorem wc_poll_change (ped : PedalState) (r : Bool) (t : Nat)
    (p : Params) (s : SafetyState) (hne : r ≠ ped.lastRaw) :
    WeldCtl.pollPedal ped r t p s = ⟨⟨r, ped.stable, t⟩, p, s, [], []⟩ := by
  simp only [WeldCtl.pollPedal, WeldCtl.PEDAL_DEBOUNCE_MS]
  rw [if_pos hne]
  dsimp only
  rw [if_neg (show ¬40 ≤ sub32 t t by simp [sub32_self])]

/-- WC: a steady sample inside the debounce window is a no-op. -/
theorem wc_poll_steady_within (ped : PedalState) (r : Bool) (t : Nat)
    (p : Params) (s : SafetyState) (heq : r = ped.lastRaw)
    (hlt : sub32 t ped.lastChange < 40) :
    WeldCtl.pollPedal ped r t p s = ⟨ped, p, s, [], []⟩ := by
  simp only [WeldCtl.pollPedal, WeldCtl.PEDAL_DEBOUNCE_MS]
  rw [if_neg (show ¬r ≠ ped.lastRaw by simp [heq])]
  rw [if_neg (show ¬40 ≤ sub32 t ped.lastChange by omega)]

/-- WC: a steady sample at the stable level is a no-op. -/
theorem wc_poll_steady_same (ped : PedalState) (r : Bool) (t : Nat)
    (p : Params) (s : SafetyState) (heq : r = ped.lastRaw)
    (hst : r = ped.stable) :
    WeldCtl.pollPedal ped r t p s = ⟨ped, p, s, [], []⟩ := by
  simp only [WeldCtl.pollPedal, WeldCtl.PEDAL_DEBOUNCE_MS]
  rw [if_neg (show ¬r ≠ ped.lastRaw by simp [heq])]
  by_cases d1 : 40 ≤ sub32 t ped.lastChange
  · rw [if_pos d1, if_neg (show ¬r ≠ ped.stable by simp [hst])]
  · rw [if_neg d1]

/-- WC: a released (high) sample never emits anything, never fires. -/
theorem wc_poll_release (ped : PedalState) (t : Nat)
    (p : Params) (s : SafetyState) :
    (WeldCtl.pollPedal ped true t p s).params = p ∧
    (WeldCtl.pollPedal ped true t p s).safety = s ∧
    (WeldCtl.pollPedal ped true t p s).lines = [] ∧
    (WeldCtl.pollPedal ped true t p s).pulses = [] := by
  simp only [WeldCtl.pollPedal, WeldCtl.PEDAL_DEBOUNCE_MS]
  split_ifs <;> simp_all

/-- WC: steady samples at the stable level leave the run unchanged. -/
theorem wc_run_quiet (samples : List (Nat × Bool)) (ped : PedalState)
    (p : Params) (s : SafetyState)
    (he : ped.lastRaw = ped.stable)
    (hs : ∀ x ∈ samples, x.2 = ped.stable) :
    WeldCtl.runPedal samples ped p s = ⟨ped, p, s, [], []⟩ := by
  induction samples with
  | nil => rfl
  | cons hd tl ih =>
    obtain ⟨t, r⟩ := hd
    have hr : r = ped.stable := hs (t, r) (by simp)
    simp only [WeldCtl.runPedal]
    rw [wc_poll_steady_same ped r t p s (hr.trans he.symm) hr]
    rw [ih (fun x hx => hs x (by simp [hx]))]
    rfl

/-- WC: deviating samples inside the window stay pending and silent. -/
theorem wc_run_within (mids : List (Nat × Bool)) (t0 : Nat) (st : Bool)
    (p : Params) (s : SafetyState)
    (hm : ∀ x ∈ mids, x.2 = !st ∧ t0 ≤ x.1 ∧ x.1 < t0 + 40) :
    WeldCtl.runPedal mids ⟨!st, st, t0⟩ p s =
      ⟨⟨!st, st, t0⟩, p, s, [], []⟩ := by
  induction mids with
  | nil => rfl
  | cons hd tl ih =>
    obtain ⟨t, r⟩ := hd
    obtain ⟨hr, hge, hlt⟩ := hm (t, r) (by simp)
    simp only at hr hge hlt
    simp only [WeldCtl.runPedal]
    rw [wc_poll_steady_within ⟨!st, st, t0⟩ r t p s hr
      (by rw [sub32_eq_sub _ _ hge (by omega)]; omega)]
    rw [ih (fun x hx => hm x (by simp [hx]))]
    rfl

/-- Splitting a pedal sample run at a list append. -/
theorem bp_runPedal_append (l1 l2 : List (Nat × Bool)) (ped : PedalState)
    (p : Params) (s : SafetyState) :
    Blackpill.runPedal (l1 ++ l2) ped p s =
      ⟨(Blackpill.runPedal l2 (Blackpill.runPedal l1 ped p s).ped
          (Blackpill.runPedal l1 ped p s).params
          (Blackpill.runPedal l1 ped p s).safety).ped,
       (Blackpill.runPedal l2 (Blackpill.runPedal l1 ped p s).ped
          (Blackpill.runPedal l1 ped p s).params
          (Blackpill.runPedal l1 ped p s).safety).params,
       (Blackpill.runPedal l2 (Blackpill.runPedal l1 ped p s).ped
          (Blackpill.runPedal l1 ped p s).params
          (Blackpill.runPedal l1 ped p s).safety).safety,
       (Blackpill.runPedal l1 ped p s).lines ++
         (Blackpill.runPedal l2 (Blackpill.runPedal l1 ped p s).ped
            (Blackpill.runPedal l1 ped p s).params
            (Blackpill.runPedal l1 ped p s).safety).lines,
       (Blackpill.runPedal l1 ped p s).pulses ++
         (Blackpill.runPedal l2 (Blackpill.runPedal l1 ped p s).ped
            (Blackpill.runPedal l1 ped p s).params
            (Blackpill.runPedal l1 ped p s).safety).pulses⟩ := by
  induction l1 generalizing ped p s with
  | nil => simp only [List.nil_append, Blackpill.runPedal]
  | cons hd tl ih =>
    obtain ⟨t, r⟩ := hd
    simp only [List.cons_append, Blackpill.runPedal, List.append_eq]
    rw [ih]
    simp [List.append_assoc]

/-- Splitting a WC pedal sample run at a list append. -/
theorem wc_runPedal_append (l1 l2 : List (Nat × Bool)) (ped : PedalState)
    (p : Params) (s : SafetyState) :
    WeldCtl.runPedal (l1 ++ l2) ped p s =
      ⟨(WeldCtl.runPedal l2 (WeldCtl.runPedal l1 ped p s).ped
          (WeldCtl.runPedal l1 ped p s).params
          (WeldCtl.runPedal l1 ped p s).safety).ped,
       (WeldCtl.runPedal l2 (WeldCtl.runPedal l1 ped p s).ped
          (WeldCtl.runPedal l1 ped p s).params
          (WeldCtl.runPedal l1 ped p s).safety).params,
       (WeldCtl.runPedal l2 (WeldCtl.runPedal l1 ped p s).ped
          (WeldCtl.runPedal l1 ped p s).params
          (WeldCtl.runPedal l1 ped p s).safety).safety,
       (WeldCtl.runPedal l1 ped p s).lines ++
         (WeldCtl.runPedal l2 (WeldCtl.runPedal l1 ped p s).ped
            (WeldCtl.runPedal l1 ped p s).params
            (WeldCtl.runPedal l1 ped p s).safety).lines,
       (WeldCtl.runPedal l1 ped p s).pulses ++
         (WeldCtl.runPedal l2 (WeldCtl.runPedal l1 ped p s).ped
            (WeldCtl.runPedal l1 ped p s).params
            (WeldCtl.runPedal l1 ped p s).safety).pulses⟩ := by
  induction l1 generalizing ped p s with
  | nil => simp only [List.nil_append, WeldCtl.runPedal]
  | cons hd tl ih =>
    obtain ⟨t, r⟩ := hd
    simp only [List.cons_append, WeldCtl.runPedal, List.append_eq]
    rw [ih]
    simp [List.append_assoc]

/-- A press held from the pending state commits exactly one
`EVENT,PEDAL_PRESS` edge. -/
theorem bp_run_press (rest : List (Nat × Bool)) (t0 : Nat)
    (p : Params) (s : SafetyState)
    (hall : ∀ x ∈ rest, x.2 = false ∧ t0 ≤ x.1 ∧ x.1 - t0 < 4294967296)
    (hex : ∃ x ∈ rest, 40 ≤ x.1 - t0) :
    ((Blackpill.runPedal rest ⟨false, true, t0⟩ p s).lines.count
      Line.eventPedalPress = 1) ∧
    (Blackpill.runPedal rest ⟨false, true, t0⟩ p s).ped.stable = false := by
  induction rest generalizing p s with
  | nil => simp at hex
  | cons hd tl ih =>
    obtain ⟨t, r⟩ := hd
    obtain ⟨hr, hge, h32⟩ := hall (t, r) (by simp)
    simp only at hr hge h32
    subst hr
    by_cases hw : 40 ≤ t - t0
    · simp only [Blackpill.runPedal]
      rw [bp_poll_commit_press ⟨false, true, t0⟩ t p s rfl rfl
        (by rw [sub32_eq_sub _ _ hge h32]; omega)]
      rw [bp_run_quiet tl ⟨false, false, t0⟩ _ _ rfl
        (fun x hx => (hall x (by simp [hx])).1)]
      have h0 : (Blackpill.fireRecipe p s t).lines.count Line.eventPedalPress = 0 :=
        List.count_eq_zero.mpr (bp_fire_no_press p s t)
      constructor
      · simp [h0]
      · rfl
    · have hlt : sub32 t t0 < 40 := by
        rw [sub32_eq_sub _ _ hge h32]
        omega
      simp only [Blackpill.runPedal]
      rw [bp_poll_steady_within ⟨false, true, t0⟩ false t p s rfl hlt]
      obtain ⟨x, hx, hx40⟩ := hex
      have hxtl : x ∈ tl := by
        rcases List.mem_cons.mp hx with h | h
        · subst h
          simp only at hx40
          exact absurd hx40 hw
        · exact h
      have hres := ih p s (fun y hy => hall y (by simp [hy])) ⟨x, hxtl, hx40⟩
      simpa using hres

/-- WC: a low level held past the debounce window commits the press
edge, which in this variant is the bare `fireRecipe` invocation (no
`EVENT,PEDAL_PRESS` line is emitted). -/
theorem wc_poll_commit_press (ped : PedalState) (t : Nat)
    (p : Params) (s : SafetyState)
    (hlr : ped.lastRaw = false) (hstb : ped.stable = true)
    (hw : 40 ≤ sub32 t ped.lastChange) :
    WeldCtl.pollPedal ped false t p s =
      ⟨⟨false, false, ped.lastChange⟩,
       (WeldCtl.fireRecipe p s t).params,
       (WeldCtl.fireRecipe p s t).safety,
       (WeldCtl.fireRecipe p s t).lines,
       (WeldCtl.fireRecipe p s t).pulses⟩ := by
  obtain ⟨lr, stb, lc⟩ := ped
  simp only at hlr hstb hw
  subst hlr
  subst hstb
  simp [WeldCtl.pollPedal, WeldCtl.PEDAL_DEBOUNCE_MS, hw]

/-- WC: a press held from the pending state commits exactly one press
edge: the entire run output is that of a single `fireRecipe`
invocation, made at the first sample on or after the 40 ms mark, and
the stable level commits to low. -/
theorem wc_run_press (rest : List (Nat × Bool)) (t0 : Nat)
    (p : Params) (s : SafetyState)
    (hall : ∀ x ∈ rest, x.2 = false ∧ t0 ≤ x.1 ∧ x.1 - t0 < 4294967296)
    (hex : ∃ x ∈ rest, 40 ≤ x.1 - t0) :
    ∃ tf, (tf, false) ∈ rest ∧ 40 ≤ tf - t0 ∧
      WeldCtl.runPedal rest ⟨false, true, t0⟩ p s =
        ⟨⟨false, false, t0⟩,
         (WeldCtl.fireRecipe p s tf).params,
         (WeldCtl.fireRecipe p s tf).safety,
         (WeldCtl.fireRecipe p s tf).lines,
         (WeldCtl.fireRecipe p s tf).pulses⟩ := by
  induction rest generalizing p s with
  | nil => simp at hex
  | cons hd tl ih =>
    obtain ⟨t, r⟩ := hd
    obtain ⟨hr, hge, h32⟩ := hall (t, r) (by simp)
    simp only at hr hge h32
    subst hr
    by_cases hw : 40 ≤ t - t0
    · refine ⟨t, by simp, hw, ?_⟩
      simp only [WeldCtl.runPedal]
      rw [wc_poll_commit_press ⟨false, true, t0⟩ t p s rfl rfl
        (by rw [sub32_eq_sub _ _ hge h32]; omega)]
      rw [wc_run_quiet tl ⟨false, false, t0⟩ _ _ rfl
        (fun x hx => (hall x (by simp [hx])).1)]
      simp
    · have hlt : sub32 t t0 < 40 := by
        rw [sub32_eq_sub _ _ hge h32]
        omega
      obtain ⟨x, hx, hx40⟩ := hex
      have hxtl : x ∈ tl := by
        rcases List.mem_cons.mp hx with h | h
        · subst h
          simp only at hx40
          exact absurd hx40 hw
        · exact h
      obtain ⟨tf, htf, htf40, heq⟩ :=
        ih p s (fun y hy => hall y (by simp [hy])) ⟨x, hxtl, hx40⟩
      refine ⟨tf, by simp [htf], htf40, ?_⟩
      simp only [WeldCtl.runPedal]
      rw [wc_poll_steady_within ⟨false, true, t0⟩ false t p s rfl hlt]
      dsimp only
      rw [heq]
      simp

/-! ## C6: pedal debounce behavior -/

/-- C6: (bounce) a raw level change at `t0` that reverts at
`t1 < t0 + 40` — with any bounce samples in between and any further
samples at the stable level — never changes the stable level, never
emits a line (no `EVENT,PEDAL_PRESS`) and never drives a pulse (no
fire invocation), in both variants; (press) a change from inactive to
active sustained to at least 40 ms produces exactly one
`EVENT,PEDAL_PRESS` edge and commits the stable level in the
Blackpill variant, and exactly one fire invocation — the whole run
output is a single `fireRecipe` call's output — in the WeldController
variant, whose press edge has no event line; (release) a high
(released) sample never produces an edge, a line, or a pulse. -/
theorem C6_debounce :
    (∀ (ped : PedalState) (p : Params) (s : SafetyState) (t0 t1 : Nat)
        (mids rest : List (Nat × Bool)),
      ped.lastRaw = ped.stable →
      (∀ x ∈ mids, x.2 = !ped.stable ∧ t0 ≤ x.1 ∧ x.1 < t0 + 40) →
      t0 ≤ t1 → t1 < t0 + 40 →
      (∀ x ∈ rest, x.2 = ped.stable) →
      Blackpill.runPedal ((t0, !ped.stable) :: (mids ++ (t1, ped.stable) :: rest))
          ped p s =
        ⟨⟨ped.stable, ped.stable, t1⟩, p, s, [], []⟩ ∧
      WeldCtl.runPedal ((t0, !ped.stable) :: (mids ++ (t1, ped.stable) :: rest))
          ped p s =
        ⟨⟨ped.stable, ped.stable, t1⟩, p, s, [], []⟩) ∧
    (∀ (ped : PedalState) (p : Params) (s : SafetyState) (t0 : Nat)
        (rest : List (Nat × Bool)),
      ped.lastRaw = true → ped.stable = true →
      (∀ x ∈ rest, x.2 = false ∧ t0 ≤ x.1 ∧ x.1 - t0 < 4294967296) →
      (∃ x ∈ rest, 40 ≤ x.1 - t0) →
      (Blackpill.runPedal ((t0, false) :: rest) ped p s).lines.count
        Line.eventPedalPress = 1 ∧
      (Blackpill.runPedal ((t0, false) :: rest) ped p s).ped.stable = false ∧
      (∃ tf, (tf, false) ∈ rest ∧ 40 ≤ tf - t0 ∧
        WeldCtl.runPedal ((t0, false) :: rest) ped p s =
          ⟨⟨false, false, t0⟩,
           (WeldCtl.fireRecipe p s tf).params,
           (WeldCtl.fireRecipe p s tf).safety,
           (WeldCtl.fireRecipe p s tf).lines,
           (WeldCtl.fireRecipe p s tf).pulses⟩)) ∧
    (∀ (ped : PedalState) (p : Params) (s : SafetyState) (t : Nat),
      (Blackpill.pollPedal ped true t p s).lines = [] ∧
      (Blackpill.pollPedal ped true t p s).pulses = [] ∧
      (Blackpill.pollPedal ped true t p s).params = p ∧
      (Blackpill.pollPedal ped true t p s).safety = s ∧
      (WeldCtl.pollPedal ped true t p s).lines = [] ∧
      (WeldCtl.pollPedal ped true t p s).pulses = [] ∧
      (WeldCtl.pollPedal ped true t p s).params = p ∧
      (WeldCtl.pollPedal ped true t p s).safety = s) := by
  refine ⟨?_, ?_, ?_⟩
  · intro ped p s t0 t1 mids rest he hm h01 h1l hrest
    constructor
    · simp only [Blackpill.runPedal]
      rw [bp_poll_change ped (!ped.stable) t0 p s (by simp [he])]
      dsimp only
      rw [bp_runPedal_append]
      rw [bp_run_within mids t0 ped.stable p s hm]
      dsimp only
      simp only [Blackpill.runPedal]
      rw [bp_poll_change ⟨!ped.stable, ped.stable, t0⟩ ped.stable t1 p s (by simp)]
      dsimp only
      rw [bp_run_quiet rest ⟨ped.stable, ped.stable, t1⟩ p s rfl hrest]
      rfl
    · simp only [WeldCtl.runPedal]
      rw [wc_poll_change ped (!ped.stable) t0 p s (by simp [he])]
      dsimp only
      rw [wc_runPedal_append]
      rw [wc_run_within mids t0 ped.stable p s hm]
      dsimp only
      simp only [WeldCtl.runPedal]
      rw [wc_poll_change ⟨!ped.stable, ped.stable, t0⟩ ped.stable t1 p s (by simp)]
      dsimp only
      rw [wc_run_quiet rest ⟨ped.stable, ped.stable, t1⟩ p s rfl hrest]
      rfl
  · intro ped p s t0 rest hlr hstb hall hex
    have hres := bp_run_press rest t0 p s hall hex
    obtain ⟨tf, htf, htf40, heq⟩ := wc_run_press rest t0 p s hall hex
    refine ⟨?_, ?_, ⟨tf, htf, htf40, ?_⟩⟩
    · simp only [Blackpill.runPedal]
      rw [bp_poll_change ped false t0 p s (by simp [hlr])]
      dsimp only
      rw [hstb]
      simpa using hres.1
    · simp only [Blackpill.runPedal]
      rw [bp_poll_change ped false t0 p s (by simp [hlr])]
      dsimp only
      rw [hstb]
      simpa using hres.2
    · simp only [WeldCtl.runPedal]
      rw [wc_poll_change ped false t0 p s (by simp [hlr])]
      dsimp only
      rw [hstb]
      rw [heq]
      simp
  · intro ped p s t
    obtain ⟨a1, a2, a3, a4⟩ := bp_poll_release ped t p s
    obtain ⟨b1, b2, b3, b4⟩ := wc_poll_release ped t p s
    exact ⟨a3, a4, a1, a2, b3, b4, b1, b2⟩

/-- C6 witness: a 30 ms bounce at t=200 (revert at 230) produces no
edge and leaves the stable level high in both variants; a press at
t=200 held through t=250 produces exactly one `EVENT,PEDAL_PRESS`
(Blackpill) and exactly one fire invocation (WeldController); a
released sample is silent. -/
theorem C6_debounce_witness :
    (Blackpill.runPedal [(200, false), (210, false), (230, true), (300, true)]
        ⟨true, true, 100⟩ Blackpill.initParams ⟨false, 0, false, 0, 0⟩ =
      ⟨⟨true, true, 230⟩, Blackpill.initParams, ⟨false, 0, false, 0, 0⟩, [], []⟩ ∧
     WeldCtl.runPedal [(200, false), (210, false), (230, true), (300, true)]
        ⟨true, true, 100⟩ Blackpill.initParams ⟨false, 0, false, 0, 0⟩ =
      ⟨⟨true, true, 230⟩, Blackpill.initParams, ⟨false, 0, false, 0, 0⟩, [], []⟩) ∧
    ((Blackpill.runPedal [(200, false), (210, false), (250, false)]
        ⟨true, true, 100⟩ Blackpill.initParams ⟨false, 0, false, 0, 0⟩).lines.count
      Line.eventPedalPress = 1 ∧
     (Blackpill.runPedal [(200, false), (210, false), (250, false)]
        ⟨true, true, 100⟩ Blackpill.initParams ⟨false, 0, false, 0, 0⟩).ped.stable
      = false ∧
     (∃ tf, (tf, false) ∈ [(210, false), (250, false)] ∧ 40 ≤ tf - 200 ∧
       WeldCtl.runPedal [(200, false), (210, false), (250, false)]
          ⟨true, true, 100⟩ Blackpill.initParams ⟨false, 0, false, 0, 0⟩ =
         ⟨⟨false, false, 200⟩,
          (WeldCtl.fireRecipe Blackpill.initParams ⟨false, 0, false, 0, 0⟩ tf).params,
          (WeldCtl.fireRecipe Blackpill.initParams ⟨false, 0, false, 0, 0⟩ tf).safety,
          (WeldCtl.fireRecipe Blackpill.initParams ⟨false, 0, false, 0, 0⟩ tf).lines,
          (WeldCtl.fireRecipe Blackpill.initParams ⟨false, 0, false, 0, 0⟩ tf).pulses⟩)) ∧
    ((Blackpill.pollPedal ⟨true, true, 100⟩ true 500 Blackpill.initParams
        ⟨false, 0, false, 0, 0⟩).lines = [] ∧
     (Blackpill.pollPedal ⟨true, true, 100⟩ true 500 Blackpill.initParams
        ⟨false, 0, false, 0, 0⟩).pulses = []) := by
  refine ⟨?_, ?_, ?_⟩
  · exact C6_debounce.1 ⟨true, true, 100⟩ Blackpill.initParams
      ⟨false, 0, false, 0, 0⟩ 200 230 [(210, false)] [(300, true)]
      rfl (by decide) (by decide) (by decide) (by decide)
  · exact C6_debounce.2.1 ⟨true, true, 100⟩ Blackpill.initParams
      ⟨false, 0, false, 0, 0⟩ 200 [(210, false), (250, false)]
      rfl rfl (by decide) (by decide)
  · obtain ⟨w1, w2, _, _, _, _, _, _⟩ :=
      C6_debounce.2.2 ⟨true, true, 100⟩ Blackpill.initParams
        ⟨false, 0, false, 0, 0⟩ 500
    exact ⟨w1, w2⟩

/-! ## C3: variant equivalence -/

theorem startsWith_iff (pre cs : List Char) :
    startsWith pre cs = true ↔ ∃ t, cs = pre ++ t := by
  induction pre generalizing cs with
  | nil =>
    simp only [startsWith, List.nil_append]
    exact ⟨fun _ => ⟨cs, rfl⟩, fun _ => trivial⟩
  | cons a as ih =>
    cases cs with
    | nil => simp [startsWith]
    | cons b bs =>
      simp only [startsWith, Bool.and_eq_true, beq_iff_eq, ih,
        List.cons_append, List.cons.injEq]
      constructor
      · rintro ⟨rfl, t, rfl⟩
        exact ⟨t, rfl, rfl⟩
      · rintro ⟨t, rfl, rfl⟩
        exact ⟨rfl, t, rfl⟩

/-- The two variants run the identical gate and sequencer: same
parameter and safety evolution, same pulses, and output traces equal
up to the `WELD_DONE` unit conversion. -/
theorem wc_bp_fire_rel (p : Params) (s : SafetyState) (now : Nat) :
    (WeldCtl.fireRecipe p s now).params = (Blackpill.fireRecipe p s now).params ∧
    (WeldCtl.fireRecipe p s now).safety = (Blackpill.fireRecipe p s now).safety ∧
    (WeldCtl.fireRecipe p s now).pulses = (Blackpill.fireRecipe p s now).pulses ∧
    (WeldCtl.fireRecipe p s now).lines =
      msLinesToUs (Blackpill.fireRecipe p s now).lines := by
  simp only [WeldCtl.fireRecipe, Blackpill.fireRecipe, wc_applyArmTimeout_id,
    bp_applyArmTimeout_id, WeldCtl.BOOT_INHIBIT_MS, Blackpill.BOOT_INHIBIT_MS,
    WeldCtl.WELD_COOLDOWN_MS, Blackpill.WELD_COOLDOWN_MS]
  by_cases g1 : sub32 now s.boot_ms < 5000
  · simp [if_pos g1, msLinesToUs]
  simp only [if_neg g1]
  by_cases g2 : s.armed = false
  · simp [if_pos g2, msLinesToUs]
  simp only [if_neg g2]
  by_cases g3 : s.welding_now = true
  · simp [if_pos g3, msLinesToUs]
  simp only [if_neg g3]
  by_cases g4 : sub32 now s.last_weld_ms < 500
  · simp [if_pos g4, msLinesToUs]
  simp only [if_neg g4]
  refine ⟨rfl, rfl, rfl, ?_⟩
  simp only [msLinesToUs, List.map_cons, List.map_nil, List.nil_append]
  rfl

/-- C3 counterexample: the variants do NOT produce the same responses
for every input: from the same state, the line `FOO` is answered
`ERR,UNKNOWN_CMD` by the Blackpill parser and ignored silently by the
WeldController parser; moreover the two variants boot with opposite
`armed` defaults, so their safety-state evolution differs from power
on. -/
theorem C3_counterexample :
    (Blackpill.parseCommand (strL (r"FOO")) Blackpill.initParams
      ⟨false, 0, true, 0, 0⟩ 0).lines = [Line.errUnknownCmd] ∧
    (WeldCtl.handleCmd (strL (r"FOO")) Blackpill.initParams
      ⟨false, 0, true, 0, 0⟩ 0).lines = [] ∧
    (Blackpill.parseCommand (strL (r"FOO")) Blackpill.initParams
      ⟨false, 0, true, 0, 0⟩ 0).lines ≠
      (WeldCtl.handleCmd (strL (r"FOO")) Blackpill.initParams
        ⟨false, 0, true, 0, 0⟩ 0).lines ∧
    (Blackpill.initSafety 0).armed ≠ (WeldCtl.initSafety 0).armed := by decide

/-- C3 (amended): the two variants share the identical interlock gate
and pulse sequencer — for equal states `fireRecipe` makes the same
decision, evolves parameters and safety state identically and drives
the same pulses, with output traces equal up to the `WELD_DONE`
millisecond/microsecond unit — and handle the shared `ARM`,
`SET_PULSE` and `SET_POWER` commands identically; but they are NOT
observationally identical: they boot with opposite `armed` defaults,
and their recognized command sets differ (see the counterexample and
C8/C9). -/
theorem C3_variant_contract :
    (∀ (p : Params) (s : SafetyState) (now : Nat),
      (WeldCtl.fireRecipe p s now).params = (Blackpill.fireRecipe p s now).params ∧
      (WeldCtl.fireRecipe p s now).safety = (Blackpill.fireRecipe p s now).safety ∧
      (WeldCtl.fireRecipe p s now).pulses = (Blackpill.fireRecipe p s now).pulses ∧
      (WeldCtl.fireRecipe p s now).lines =
        msLinesToUs (Blackpill.fireRecipe p s now).lines) ∧
    (∀ (cs : List Char) (p : Params) (st : SafetyState) (now : Nat),
      startsWith (strL (r"ARM,")) cs = true →
      WeldCtl.handleCmd cs p st now = Blackpill.parseCommand cs p st now) ∧
    (∀ (cs : List Char) (p : Params) (st : SafetyState) (now : Nat),
      startsWith (strL (r"SET_PULSE,")) cs = true →
      WeldCtl.handleCmd cs p st now = Blackpill.parseCommand cs p st now) ∧
    (∀ (cs : List Char) (p : Params) (st : SafetyState) (now : Nat),
      startsWith (strL (r"SET_POWER,")) cs = true →
      WeldCtl.handleCmd cs p st now = Blackpill.parseCommand cs p st now) ∧
    ((Blackpill.initSafety 0).armed = false ∧ (WeldCtl.initSafety 0).armed = true) := by
  refine ⟨wc_bp_fire_rel, ?_, ?_, ?_, rfl, rfl⟩
  · intro cs p st now h
    obtain ⟨t, rfl⟩ := (startsWith_iff _ _).mp h
    rfl
  · intro cs p st now h
    obtain ⟨t, rfl⟩ := (startsWith_iff _ _).mp h
    rw [bp_pulse_red, wc_pulse_red]
    by_cases h2 : (scanIntsSep t 6).1 ≥ 2
    · rw [if_pos h2, if_neg (by omega)]
      rfl
    · rw [if_neg h2, if_pos (by omega)]
  · intro cs p st now h
    obtain ⟨t, rfl⟩ := (startsWith_iff _ _).mp h
    rw [bp_power_red, wc_power_red]
    rfl

/-- C3 witness: the fire relation evaluated at the default recipe with
an armed post-boot state, and the `ARM,1` line handled identically by
both parsers. -/
theorem C3_variant_contract_witness :
    ((WeldCtl.fireRecipe Blackpill.initParams ⟨false, 0, true, 0, 0⟩ 6000).lines =
      msLinesToUs
        (Blackpill.fireRecipe Blackpill.initParams ⟨false, 0, true, 0, 0⟩ 6000).lines) ∧
    (WeldCtl.handleCmd (strL (r"ARM,1")) Blackpill.initParams
        ⟨false, 0, false, 0, 0⟩ 0 =
      Blackpill.parseCommand (strL (r"ARM,1")) Blackpill.initParams
        ⟨false, 0, false, 0, 0⟩ 0) :=
  ⟨(C3_variant_contract.1 Blackpill.initParams ⟨false, 0, true, 0, 0⟩ 6000).2.2.2,
   C3_variant_contract.2.1 (strL (r"ARM,1")) Blackpill.initParams
     ⟨false, 0, false, 0, 0⟩ 0 (by decide)⟩

end SpotWeld
